import Mathlib

/-!
# Verification of the obs-sync state-replication core

A shallow embedding, in Lean 4, of the state-replication subsystem of the
`obs-sync` repository: the protocol codec (`src-tauri/src/sync/protocol.rs`),
the drift detector (`src-tauri/src/sync/diff.rs`), the master sync engine
(`src-tauri/src/sync/master.rs`), the slave applier
(`src-tauri/src/sync/slave.rs`), the slave connection supervisor
(`src-tauri/src/network/client.rs`) and the broadcast server's upstream frame
dispatch (`src-tauri/src/network/server.rs`).

Modelling conventions:
* `serde_json::Value` is modelled by the inductive `Json`; JSON numbers are
  modelled as rationals (`ℚ`), which is faithful to the comparison and
  field-selection structure of the code (no claim under study depends on
  binary floating-point rounding).
* Asynchronous BC-API (OBS websocket) calls are modelled by explicit oracles:
  records of functions giving each remote read's result (`Except String _`)
  and each remote write's outcome.  A function of the code that performs
  remote calls becomes a Lean function of the oracle returning the list of
  performed actions (its trace) together with its result.
* `tokio` channels are modelled by the list of messages enqueued.
* Wall-clock timestamps are passed in as explicit `now` parameters.
-/

namespace ObsSync

/-! ## JSON values (model of `serde_json::Value`) -/

inductive Json where
  | null : Json
  | bool : Bool → Json
  | num : ℚ → Json
  | str : String → Json
  | arr : List Json → Json
  | obj : List (String × Json) → Json

namespace Json

/-- `value.get("k")` on a JSON value: field lookup, `none` when the value is
not an object or lacks the key. -/
def getField : Json → String → Option Json
  | .obj fs, k => fs.lookup k
  | _, _ => none

/-- `Value::as_str`. -/
def asStr : Json → Option String
  | .str s => some s
  | _ => none

/-- `Value::as_bool`. -/
def asBool : Json → Option Bool
  | .bool b => some b
  | _ => none

/-- `Value::as_i64`: defined on integral numbers only. -/
def asInt : Json → Option Int
  | .num q => if q.den = 1 then some q.num else none
  | _ => none

/-- `Value::as_f64` (numbers modelled as rationals). -/
def asNum : Json → Option ℚ
  | .num q => some q
  | _ => none

/-- `Value::as_array`. -/
def asArr : Json → Option (List Json)
  | .arr xs => some xs
  | _ => none

/-- `Value::as_object`. -/
def asObj : Json → Option (List (String × Json))
  | .obj fs => some fs
  | _ => none

/-- Insert-or-replace of a key in an association list (model of
`serde_json::Map::insert`). -/
def insertField (fs : List (String × Json)) (k : String) (v : Json) :
    List (String × Json) :=
  match fs with
  | [] => [(k, v)]
  | (k1, v1) :: rest =>
      if k1 = k then (k, v) :: rest else (k1, v1) :: insertField rest k v

/-- `value["k"] = v` on a JSON object (the projection in `slave.rs` starts as
`json!({})` and is only ever indexed-assigned, so the object case is the one
exercised; other values are left unchanged). -/
def setField (j : Json) (k : String) (v : Json) : Json :=
  match j with
  | .obj fs => .obj (insertField fs k v)
  | other => other

end Json

/-! ## Protocol codec (`sync/protocol.rs`) -/

/-- `SyncMessageType` from `protocol.rs`. -/
inductive SyncMessageType where
  | sourceUpdate
  | transformUpdate
  | sceneChange
  | imageUpdate
  | filterUpdate
  | heartbeat
  | stateSync
  | stateSyncRequest
  | stateReport
deriving DecidableEq, Repr

/-- `SyncTargetType` from `protocol.rs`. -/
inductive SyncTargetType where
  | source
  | preview
  | program
deriving DecidableEq, Repr

/-- Serde `rename_all = "snake_case"` discriminant of `SyncMessageType`. -/
def SyncMessageType.wireName : SyncMessageType → String
  | .sourceUpdate => "source_update"
  | .transformUpdate => "transform_update"
  | .sceneChange => "scene_change"
  | .imageUpdate => "image_update"
  | .filterUpdate => "filter_update"
  | .heartbeat => "heartbeat"
  | .stateSync => "state_sync"
  | .stateSyncRequest => "state_sync_request"
  | .stateReport => "state_report"

/-- Inverse of `SyncMessageType.wireName` (serde deserialization of the
enum discriminant). -/
def SyncMessageType.ofWireName (s : String) : Option SyncMessageType :=
  if s = "source_update" then some .sourceUpdate
  else if s = "transform_update" then some .transformUpdate
  else if s = "scene_change" then some .sceneChange
  else if s = "image_update" then some .imageUpdate
  else if s = "filter_update" then some .filterUpdate
  else if s = "heartbeat" then some .heartbeat
  else if s = "state_sync" then some .stateSync
  else if s = "state_sync_request" then some .stateSyncRequest
  else if s = "state_report" then some .stateReport
  else none

/-- Serde `rename_all = "snake_case"` discriminant of `SyncTargetType`. -/
def SyncTargetType.wireName : SyncTargetType → String
  | .source => "source"
  | .preview => "preview"
  | .program => "program"

/-- Inverse of `SyncTargetType.wireName`. -/
def SyncTargetType.ofWireName (s : String) : Option SyncTargetType :=
  if s = "source" then some .source
  else if s = "preview" then some .preview
  else if s = "program" then some .program
  else none

/-- `SyncMessage` from `protocol.rs`: the protocol envelope. -/
structure SyncMessage where
  message_type : SyncMessageType
  timestamp : Int
  target_type : SyncTargetType
  payload : Json

/-- `SyncMessage::new` — the envelope constructor; the wall-clock timestamp
is an explicit parameter of the model. -/
def SyncMessage.mk' (mt : SyncMessageType) (tt : SyncTargetType) (payload : Json)
    (now : Int) : SyncMessage :=
  { message_type := mt, timestamp := now, target_type := tt, payload := payload }

/-- Serialization of a `SyncMessage` (serde `Serialize` derive with
`#[serde(rename = "type")]` on `message_type`), at the JSON-tree level. -/
def encodeSyncMessage (m : SyncMessage) : Json :=
  .obj [("type", .str m.message_type.wireName),
        ("timestamp", .num (m.timestamp : ℚ)),
        ("target_type", .str m.target_type.wireName),
        ("payload", m.payload)]

/-- Deserialization of a `SyncMessage` (serde `Deserialize` derive), at the
JSON-tree level: each named field is looked up and converted; unknown fields
are ignored (serde default). -/
def decodeSyncMessage (j : Json) : Option SyncMessage := do
  let tyField ← j.getField "type"
  let tyStr ← tyField.asStr
  let mt ← SyncMessageType.ofWireName tyStr
  let tsField ← j.getField "timestamp"
  let ts ← tsField.asInt
  let ttField ← j.getField "target_type"
  let ttStr ← ttField.asStr
  let tt ← SyncTargetType.ofWireName ttStr
  let payload ← j.getField "payload"
  some { message_type := mt, timestamp := ts, target_type := tt, payload := payload }

/-! ## Drift detector (`sync/diff.rs`) -/

/-- `DiffCategory` from `diff.rs`. -/
inductive DiffCategory where
  | sceneMismatch
  | sourceMissing
  | transformMismatch
  | settingsMismatch
deriving DecidableEq, Repr

/-- `DiffSeverity` from `diff.rs`. -/
inductive DiffSeverity where
  | critical
  | warning
  | info
deriving DecidableEq, Repr

/-- `StateDifference` from `diff.rs`. -/
structure StateDifference where
  category : DiffCategory
  scene_name : String
  source_name : String
  description : String
  severity : DiffSeverity

/-- Rendering of a rational into the human-readable diff description
(model of the `{:.1}` / `{:.2}` float formatting; the rendered text is
never inspected by the rest of the system). -/
def ratStr (q : ℚ) : String := toString q

/-- `value.get(k).and_then(|v| v.as_f64()).unwrap_or(d)` — numeric field
extraction with a default, as used throughout `compare_transforms`. -/
def getNumD (j : Json) (k : String) (d : ℚ) : ℚ :=
  ((j.getField k).bind Json.asNum).getD d

namespace DiffDetector

/-- `DiffDetector::TRANSFORM_TOLERANCE` (`0.5`): tolerance for position
differences. -/
def TRANSFORM_TOLERANCE : ℚ := 1/2

/-- `DiffDetector::compare_transforms`: compares the `transform` objects of a
matching local/expected source pair; returns `none` when either transform is
absent or no field differs beyond tolerance, `some diffs` otherwise. -/
def compareTransforms (localSource expectedSource : Json)
    (sceneName sourceName : String) : Option (List StateDifference) := do
  let localTransform ← localSource.getField "transform"
  let expectedTransform ← expectedSource.getField "transform"
  let localX := getNumD localTransform "position_x" 0
  let expectedX := getNumD expectedTransform "position_x" 0
  let localY := getNumD localTransform "position_y" 0
  let expectedY := getNumD expectedTransform "position_y" 0
  let positionDiffs : List StateDifference :=
    if |localX - expectedX| > TRANSFORM_TOLERANCE ∨
        |localY - expectedY| > TRANSFORM_TOLERANCE then
      [{ category := .transformMismatch
         scene_name := sceneName
         source_name := sourceName
         description := "Position mismatch: local=(" ++ ratStr localX ++ ", " ++
           ratStr localY ++ "), expected=(" ++ ratStr expectedX ++ ", " ++
           ratStr expectedY ++ ")"
         severity := .warning }]
    else []
  let localScaleX := getNumD localTransform "scale_x" 1
  let expectedScaleX := getNumD expectedTransform "scale_x" 1
  let localScaleY := getNumD localTransform "scale_y" 1
  let expectedScaleY := getNumD expectedTransform "scale_y" 1
  let scaleDiffs : List StateDifference :=
    if |localScaleX - expectedScaleX| > 1/100 ∨
        |localScaleY - expectedScaleY| > 1/100 then
      [{ category := .transformMismatch
         scene_name := sceneName
         source_name := sourceName
         description := "Scale mismatch: local=(" ++ ratStr localScaleX ++ ", " ++
           ratStr localScaleY ++ "), expected=(" ++ ratStr expectedScaleX ++
           ", " ++ ratStr expectedScaleY ++ ")"
         severity := .warning }]
    else []
  let diffs := positionDiffs ++ scaleDiffs
  if diffs.isEmpty then none else some diffs

/-- Name of a source entry in a sampled/expected state (`get("name")`,
defaulting to the empty string). -/
def sourceNameOf (s : Json) : String :=
  ((s.getField "name").bind Json.asStr).getD ""

/-- `DiffDetector::detect_differences`: scene mismatch (Critical), missing
sources (Warning) and transform mismatches of matching sources. -/
def detectDifferences (localState expectedState : Json) :
    List StateDifference :=
  let localScene := ((localState.getField "current_scene").bind Json.asStr).getD ""
  let expectedScene :=
    ((expectedState.getField "current_scene").bind Json.asStr).getD ""
  let sceneDiffs : List StateDifference :=
    if localScene ≠ expectedScene ∧ ¬ expectedScene = "" then
      [{ category := .sceneMismatch
         scene_name := expectedScene
         source_name := ""
         description := "Current scene mismatch: local=\x27" ++ localScene ++
           "\x27, expected=\x27" ++ expectedScene ++ "\x27"
         severity := .critical }]
    else []
  let sourceDiffs : List StateDifference :=
    match (localState.getField "sources").bind Json.asArr,
        (expectedState.getField "sources").bind Json.asArr with
    | some localSources, some expectedSources =>
        expectedSources.flatMap fun expectedSource =>
          let expectedName := sourceNameOf expectedSource
          if ¬ localSources.any (fun s => sourceNameOf s == expectedName) then
            [{ category := .sourceMissing
               scene_name := localScene
               source_name := expectedName
               description := "Source \x27" ++ expectedName ++ "\x27 is missing"
               severity := .warning }]
          else
            match localSources.find? (fun s => sourceNameOf s == expectedName) with
            | some localSource =>
                (compareTransforms localSource expectedSource localScene
                  expectedName).getD []
            | none => []
    | _, _ => []
  sceneDiffs ++ sourceDiffs

/-- `DiffDetector::is_synced`. -/
def isSynced (diffs : List StateDifference) : Bool := diffs.isEmpty

end DiffDetector

/-! ## Master sync engine (`sync/master.rs`) -/

/-- The OBS event enum consumed by `MasterSync::start_monitoring`
(`obs/events.rs`, plus the `SceneItemFilterChanged` shape matched in
`master.rs`). `SceneChanged` is the translation of the BC-API's
`CurrentProgramSceneChanged`. -/
inductive OBSEvent where
  | sceneChanged (scene_name : String)
  | sceneItemTransformChanged (scene_name : String) (scene_item_id : Int)
  | sourceCreated (source_name : String)
  | sourceDestroyed (source_name : String)
  | inputSettingsChanged (input_name : String)
  | currentPreviewSceneChanged (scene_name : String)
  | sceneItemFilterChanged (scene_name : String) (scene_item_id : Int)
      (filter_name : String)

/-- An `obws` scene-item transform.  The obws struct has further fields
(alignment, bounds) that `slave.rs` copies wholesale exactly like the crop
fields; the four crop fields here stand for everything outside the seven
scalars the protocol serializes. -/
structure SceneItemTransform where
  position_x : ℚ
  position_y : ℚ
  rotation : ℚ
  scale_x : ℚ
  scale_y : ℚ
  width : ℚ
  height : ℚ
  crop_left : ℚ
  crop_right : ℚ
  crop_top : ℚ
  crop_bottom : ℚ

/-- An `obws` scene-item list entry (`id`, `source_name`, `input_kind`). -/
structure SceneItem where
  id : Int
  source_name : String
  input_kind : Option String

/-- An `obws` source filter (`name`, `enabled`, `settings`). -/
structure SourceFilter where
  name : String
  enabled : Bool
  settings : Json

/-- Oracle for the master's BC-API reads.  `connected` models
`client_lock.as_ref()` being `Some`; each field gives the (deterministic)
result of the corresponding remote read.  Scene names stand for the
`format!("{:?}", scene.id)` rendering used by `master.rs`. -/
structure MasterOracle where
  connected : Bool
  currentProgramScene : Except String String
  currentPreviewScene : Except String String
  sceneList : Except String (List String)
  sceneItems : String → Except String (List SceneItem)
  transform : String → Int → Except String SceneItemTransform
  inputSettings : String → Except String Json
  readFile : String → Option String
  filters : String → Except String (List SourceFilter)

/-- The transform payload object built by `master.rs` (seven scalar fields). -/
def transformJson (t : SceneItemTransform) : Json :=
  .obj [("position_x", .num t.position_x), ("position_y", .num t.position_y),
        ("rotation", .num t.rotation), ("scale_x", .num t.scale_x),
        ("scale_y", .num t.scale_y), ("width", .num t.width),
        ("height", .num t.height)]

/-- Model of Rust `str::contains`: whether `needle` occurs in `s` (used for
the `source_type.contains("image")` check). -/
def strContains (s needle : String) : Bool := (s.splitOn needle).length > 1

/-- Resolution of `(scene_name, scene_item_id, source_name)` for a
`SceneItemFilterChanged` event (the two-way lookup in `master.rs`): when the
event carries a scene and a positive item id, look the item up in that scene;
otherwise scan every scene's items for a source bearing the filter. -/
def resolveFilterSource (o : MasterOracle) (scene_name : String)
    (scene_item_id : Int) (filter_name : String) :
    Option (String × Int × String) :=
  if scene_name ≠ "" ∧ scene_item_id > 0 then
    match o.sceneItems scene_name with
    | .ok items =>
        match items.find? (fun i => i.id == scene_item_id) with
        | some item => some (scene_name, scene_item_id, item.source_name)
        | none => none
    | .error _ => none
  else
    match o.sceneList with
    | .ok scenes =>
        (scenes.flatMap fun scene =>
          match o.sceneItems scene with
          | .ok items =>
              items.filterMap fun item =>
                match o.filters item.source_name with
                | .ok fs =>
                    if fs.any (fun f => f.name == filter_name) then
                      some (scene, item.id, item.source_name)
                    else none
                | .error _ => none
          | .error _ => []).head?
    | .error _ => none

/-- The messages that one OBS event makes `start_monitoring` enqueue on the
outbound channel, as a function of the active targets and the BC-API oracle
(detail fetches run in spawned tasks; the model collapses each task to the
message it eventually enqueues, or none when the fetch fails). -/
def eventMessages (targets : List SyncTargetType) (o : MasterOracle)
    (now : Int) : OBSEvent → List SyncMessage
  | .sceneChanged scene_name =>
      if SyncTargetType.program ∈ targets then
        [SyncMessage.mk' .sceneChange .program
          (.obj [("scene_name", .str scene_name)]) now]
      else []
  | .currentPreviewSceneChanged scene_name =>
      if SyncTargetType.preview ∈ targets then
        [SyncMessage.mk' .sceneChange .preview
          (.obj [("scene_name", .str scene_name)]) now]
      else []
  | .sceneItemTransformChanged scene_name scene_item_id =>
      if SyncTargetType.source ∈ targets then
        if o.connected then
          match o.transform scene_name scene_item_id with
          | .ok t =>
              [SyncMessage.mk' .transformUpdate .source
                (.obj [("scene_name", .str scene_name),
                  ("scene_item_id", .num (scene_item_id : ℚ)),
                  ("transform", transformJson t)]) now]
          | .error _ => []
        else []
      else []
  | .sceneItemFilterChanged scene_name scene_item_id filter_name =>
      if SyncTargetType.source ∈ targets then
        if o.connected then
          match resolveFilterSource o scene_name scene_item_id filter_name with
          | some (scene, item_id, source) =>
              match o.filters source with
              | .ok fs =>
                  match fs.find? (fun f => f.name == filter_name) with
                  | some filter =>
                      [SyncMessage.mk' .filterUpdate .source
                        (.obj [("scene_name", .str scene),
                          ("scene_item_id", .num (item_id : ℚ)),
                          ("source_name", .str source),
                          ("filter_name", .str filter_name),
                          ("filter_settings", filter.settings)]) now]
                  | none => []
              | .error _ => []
          | none => []
        else []
      else []
  | .inputSettingsChanged input_name =>
      if SyncTargetType.source ∈ targets then
        if o.connected then
          match o.inputSettings input_name with
          | .ok settings =>
              let filePath :=
                ((settings.getField "file").bind Json.asStr).getD ""
              if filePath = "" then []
              else
                let imageData : Json :=
                  match o.readFile filePath with
                  | some encoded => .str encoded
                  | none => .null
                [SyncMessage.mk' .imageUpdate .source
                  (.obj [("scene_name", .str ""),
                    ("source_name", .str input_name),
                    ("file", .str filePath),
                    ("image_data", imageData)]) now]
          | .error _ => []
        else []
      else []
  | .sourceCreated _ => []
  | .sourceDestroyed _ => []

/-- `MasterSync::get_image_data_for_source`: input settings → `file` path →
file bytes base64-encoded; `none` on any failure along the way. -/
def imageDataForSource (o : MasterOracle) (input_name : String) :
    Option (String × String) :=
  if o.connected then
    match o.inputSettings input_name with
    | .ok settings =>
        match (settings.getField "file").bind Json.asStr with
        | some filePath =>
            match o.readFile filePath with
            | some encoded => some (filePath, encoded)
            | none => none
        | none => none
    | .error _ => none
  else none

/-- The per-item snapshot object built inside `send_initial_state`: a failed
transform read yields `null`, a missing/unreadable image yields `null`, a
failed filter-list read yields an empty `filters` array. -/
def itemSnapshotJson (o : MasterOracle) (sceneName : String)
    (item : SceneItem) : Json :=
  let transform : Json :=
    match o.transform sceneName item.id with
    | .ok t => transformJson t
    | .error _ => .null
  let sourceType := item.input_kind.getD "unknown"
  let imageData : Json :=
    if strContains sourceType "image" then
      match imageDataForSource o item.source_name with
      | some (path, data) => .obj [("file", .str path), ("data", .str data)]
      | none => .null
    else .null
  let filtersData : List Json :=
    match o.filters item.source_name with
    | .ok fs =>
        fs.map fun f =>
          .obj [("name", .str f.name), ("enabled", .bool f.enabled),
            ("settings", f.settings)]
    | .error _ => []
  .obj [("source_name", .str item.source_name),
        ("scene_item_id", .num (item.id : ℚ)),
        ("source_type", .str sourceType),
        ("transform", transform),
        ("image_data", imageData),
        ("filters", .arr filtersData)]

/-- The per-scene snapshot object of `send_initial_state`; `none` when the
scene's item list cannot be read (the scene is then skipped). -/
def sceneSnapshotJson (o : MasterOracle) (sceneName : String) : Option Json :=
  match o.sceneItems sceneName with
  | .ok items =>
      some (.obj [("name", .str sceneName),
        ("items", .arr (items.map (itemSnapshotJson o sceneName)))])
  | .error _ => none

/-- `MasterSync::send_initial_state`: the messages it enqueues on the
outbound channel.  Note it never consults `active_targets`; it returns
without sending when disconnected or when a top-level read
(`current_program_scene`, `list_scenes`) fails. -/
def sendInitialState (o : MasterOracle) (now : Int) : List SyncMessage :=
  if o.connected then
    match o.currentProgramScene with
    | .error _ => []
    | .ok currentProgram =>
        match o.sceneList with
        | .error _ => []
        | .ok sceneNames =>
            let scenesData := sceneNames.filterMap (sceneSnapshotJson o)
            let previewJson : Json :=
              match o.currentPreviewScene with
              | .ok p => .str p
              | .error _ => .null
            [SyncMessage.mk' .stateSync .program
              (.obj [("current_program_scene", .str currentProgram),
                ("current_preview_scene", previewJson),
                ("scenes", .arr scenesData)]) now]
  else []

end ObsSync

namespace ObsSync

/-- C9: For every well-formed envelope (any message_type, any target_type,
any JSON payload, any timestamp), decoding the encoded wire form yields the
original envelope: `decode (encode m) = m`. -/
theorem decode_encode_syncMessage (m : SyncMessage) :
    decodeSyncMessage (encodeSyncMessage m) = some m := by
  obtain ⟨mt, ts, tt, p⟩ := m
  cases mt <;> cases tt <;>
    simp [encodeSyncMessage, decodeSyncMessage, Json.getField, Json.asStr,
      Json.asInt, SyncMessageType.wireName, SyncMessageType.ofWireName,
      SyncTargetType.wireName, SyncTargetType.ofWireName, List.lookup,
      Rat.den_intCast, Rat.num_intCast]

/-- C3: the drift detector never reports a `TransformMismatch` for a source
whose local and expected transforms satisfy `|Δposition_x| ≤ 0.5`,
`|Δposition_y| ≤ 0.5`, `|Δscale_x| ≤ 0.01` and `|Δscale_y| ≤ 0.01`
(`compare_transforms` returns `None`); and it reports a `TransformMismatch`
of severity `Warning` when a position delta exceeds `0.5` or a scale delta
exceeds `0.01`. -/
theorem compareTransforms_tolerance (localSource expectedSource : Json)
    (sceneName sourceName : String) (lt et : Json)
    (hl : localSource.getField "transform" = some lt)
    (he : expectedSource.getField "transform" = some et) :
    ((|getNumD lt "position_x" 0 - getNumD et "position_x" 0| ≤ 1/2 ∧
      |getNumD lt "position_y" 0 - getNumD et "position_y" 0| ≤ 1/2 ∧
      |getNumD lt "scale_x" 1 - getNumD et "scale_x" 1| ≤ 1/100 ∧
      |getNumD lt "scale_y" 1 - getNumD et "scale_y" 1| ≤ 1/100) →
      DiffDetector.compareTransforms localSource expectedSource
        sceneName sourceName = none) ∧
    ((|getNumD lt "position_x" 0 - getNumD et "position_x" 0| > 1/2 ∨
      |getNumD lt "position_y" 0 - getNumD et "position_y" 0| > 1/2 ∨
      |getNumD lt "scale_x" 1 - getNumD et "scale_x" 1| > 1/100 ∨
      |getNumD lt "scale_y" 1 - getNumD et "scale_y" 1| > 1/100) →
      ∃ diffs, DiffDetector.compareTransforms localSource expectedSource
          sceneName sourceName = some diffs ∧
        ∃ d ∈ diffs, d.category = DiffCategory.transformMismatch ∧
          d.severity = DiffSeverity.warning) := by
  have finish : ∀ (pd sd : List StateDifference) (d : StateDifference),
      d ∈ pd ++ sd → d.category = DiffCategory.transformMismatch →
      d.severity = DiffSeverity.warning →
      ∃ diffs,
        (if (pd ++ sd).isEmpty then (none : Option (List StateDifference))
          else some (pd ++ sd)) = some diffs ∧
        ∃ e ∈ diffs, e.category = DiffCategory.transformMismatch ∧
          e.severity = DiffSeverity.warning := by
    intro pd sd d hmem hc hsev
    have hne : (pd ++ sd).isEmpty = false := by
      cases h : pd ++ sd with
      | nil => rw [h] at hmem; cases hmem
      | cons a l => simp
    exact ⟨pd ++ sd, by simp [hne], d, hmem, hc, hsev⟩
  constructor
  · rintro ⟨h1, h2, h3, h4⟩
    have hp : ¬(|getNumD lt "position_x" 0 - getNumD et "position_x" 0| >
        (1/2 : ℚ) ∨
        |getNumD lt "position_y" 0 - getNumD et "position_y" 0| > (1/2 : ℚ)) := by
      push_neg; exact ⟨h1, h2⟩
    have hs : ¬(|getNumD lt "scale_x" 1 - getNumD et "scale_x" 1| >
        (1/100 : ℚ) ∨
        |getNumD lt "scale_y" 1 - getNumD et "scale_y" 1| > (1/100 : ℚ)) := by
      push_neg; exact ⟨h3, h4⟩
    simp only [DiffDetector.compareTransforms, hl, he, Option.bind_eq_bind,
      Option.some_bind, DiffDetector.TRANSFORM_TOLERANCE, if_neg hp, if_neg hs]
    simp
  · intro h
    simp only [DiffDetector.compareTransforms, hl, he, Option.bind_eq_bind,
      Option.some_bind, DiffDetector.TRANSFORM_TOLERANCE]
    rcases h with h | h | h | h
    · rw [if_pos (Or.inl h)]
      exact finish _ _ _ (List.mem_append_left _ (List.mem_singleton_self _))
        rfl rfl
    · rw [if_pos (Or.inr h)]
      exact finish _ _ _ (List.mem_append_left _ (List.mem_singleton_self _))
        rfl rfl
    · rw [if_pos (Or.inl h)]
      exact finish _ _ _ (List.mem_append_right _ (List.mem_singleton_self _))
        rfl rfl
    · rw [if_pos (Or.inr h)]
      exact finish _ _ _ (List.mem_append_right _ (List.mem_singleton_self _))
        rfl rfl

/-- Witness for C3 at concrete transforms: local position `(1, 0)` against
expected `(0, 0)` with equal scales — the position delta `1` exceeds the
`0.5` tolerance, the scale deltas are zero. -/
theorem compareTransforms_tolerance_witness :
    ((Json.obj [("transform",
        Json.obj [("position_x", Json.num 1), ("position_y", Json.num 0),
          ("scale_x", Json.num 1), ("scale_y", Json.num 1)])]).getField
        "transform" = some (Json.obj [("position_x", Json.num 1),
          ("position_y", Json.num 0), ("scale_x", Json.num 1),
          ("scale_y", Json.num 1)])) ∧
    ((|getNumD (Json.obj [("position_x", Json.num 1), ("position_y", Json.num 0),
          ("scale_x", Json.num 1), ("scale_y", Json.num 1)]) "position_x" 0 -
        getNumD (Json.obj [("position_x", Json.num 0), ("position_y", Json.num 0),
          ("scale_x", Json.num 1), ("scale_y", Json.num 1)]) "position_x" 0| > 1/2) →
      ∃ diffs, DiffDetector.compareTransforms
          (Json.obj [("transform",
            Json.obj [("position_x", Json.num 1), ("position_y", Json.num 0),
              ("scale_x", Json.num 1), ("scale_y", Json.num 1)])])
          (Json.obj [("transform",
            Json.obj [("position_x", Json.num 0), ("position_y", Json.num 0),
              ("scale_x", Json.num 1), ("scale_y", Json.num 1)])])
          "Scene" "Cam" = some diffs ∧
        ∃ d ∈ diffs, d.category = DiffCategory.transformMismatch ∧
          d.severity = DiffSeverity.warning) :=
  ⟨rfl, fun h => (compareTransforms_tolerance
    (Json.obj [("transform",
      Json.obj [("position_x", Json.num 1), ("position_y", Json.num 0),
        ("scale_x", Json.num 1), ("scale_y", Json.num 1)])])
    (Json.obj [("transform",
      Json.obj [("position_x", Json.num 0), ("position_y", Json.num 0),
        ("scale_x", Json.num 1), ("scale_y", Json.num 1)])])
    "Scene" "Cam"
    (Json.obj [("position_x", Json.num 1), ("position_y", Json.num 0),
      ("scale_x", Json.num 1), ("scale_y", Json.num 1)])
    (Json.obj [("position_x", Json.num 0), ("position_y", Json.num 0),
      ("scale_x", Json.num 1), ("scale_y", Json.num 1)])
    rfl rfl).2 (Or.inl h)⟩

/-- A master-side oracle whose top-level reads succeed (one empty scene
`"S1"`, no preview scene, no items). -/
def okOracle : MasterOracle where
  connected := true
  currentProgramScene := .ok "S1"
  currentPreviewScene := .error "not in studio mode"
  sceneList := .ok ["S1"]
  sceneItems := fun _ => .ok []
  transform := fun _ _ => .error "no such item"
  inputSettings := fun _ => .error "no such input"
  readFile := fun _ => none
  filters := fun _ => .error "no such source"

/-- A master-side oracle that is connected but whose
`current_program_scene` read fails. -/
def topFailOracle : MasterOracle where
  connected := true
  currentProgramScene := .error "request timed out"
  currentPreviewScene := .error "not in studio mode"
  sceneList := .ok []
  sceneItems := fun _ => .ok []
  transform := fun _ _ => .error "no such item"
  inputSettings := fun _ => .error "no such input"
  readFile := fun _ => none
  filters := fun _ => .error "no such source"

/-- A master-side oracle with one scene holding one image-source item whose
per-item reads (transform, image bytes, filters) all fail. -/
def itemFailOracle : MasterOracle where
  connected := true
  currentProgramScene := .ok "S1"
  currentPreviewScene := .error "not in studio mode"
  sceneList := .ok ["S1"]
  sceneItems := fun _ =>
    .ok [{ id := 1, source_name := "Logo", input_kind := some "image_source" }]
  transform := fun _ _ => .error "request timed out"
  inputSettings := fun _ => .error "request timed out"
  readFile := fun _ => none
  filters := fun _ => .error "request timed out"

/-- Counterexample to C1 as stated: `send_initial_state` never consults
`active_targets`.  With `active_targets = {Source}` the produced `StateSync`
has `target_type = Program ∉ active_targets`, yet it is enqueued. -/
theorem sendInitialState_ignores_active_targets :
    ((sendInitialState okOracle 0).map (fun m => m.target_type) =
      [SyncTargetType.program]) ∧
    SyncTargetType.program ∉ [SyncTargetType.source] :=
  ⟨rfl, by decide⟩

/-- C1 (amended): every event-derived message produced by
`start_monitoring` has its `target_type` in `active_targets` (messages whose
target is inactive are dropped); with `active_targets = {Program}` an
`InputSettingsChanged` yields no message and a `CurrentProgramSceneChanged`
yields exactly one `SceneChange`; the `StateSync` of `send_initial_state`,
however, is enqueued with target `Program` regardless of `active_targets`. -/
theorem eventMessages_target_filter (targets : List SyncTargetType)
    (o : MasterOracle) (now : Int) :
    (∀ ev : OBSEvent, ∀ m ∈ eventMessages targets o now ev,
      m.target_type ∈ targets) ∧
    (∀ name, eventMessages [SyncTargetType.program] o now
      (.inputSettingsChanged name) = []) ∧
    (∀ s, eventMessages [SyncTargetType.program] o now (.sceneChanged s) =
      [SyncMessage.mk' .sceneChange .program
        (.obj [("scene_name", .str s)]) now]) ∧
    (∀ progScene scenes, o.connected = true →
      o.currentProgramScene = .ok progScene → o.sceneList = .ok scenes →
      (sendInitialState o now).map (fun m => m.target_type) =
        [SyncTargetType.program]) := by
  refine ⟨?_, ?_, ?_, ?_⟩
  · intro ev m hm
    cases ev <;> simp only [eventMessages] at hm <;>
      (repeat' split at hm) <;> simp_all [SyncMessage.mk']
  · intro name
    simp [eventMessages]
  · intro s
    simp [eventMessages]
  · intro progScene scenes hc hp hl
    simp [sendInitialState, hc, hp, hl, SyncMessage.mk']

/-- Witness for C1 at concrete inputs: with `active_targets = {Program}`,
an `InputSettingsChanged` for `"Logo"` produces nothing, a scene change to
`"Camera 2"` produces exactly one `SceneChange`, and `send_initial_state`
still produces its Program-targeted `StateSync`. -/
theorem eventMessages_target_filter_witness :
    (eventMessages [SyncTargetType.program] okOracle 0
      (.inputSettingsChanged "Logo") = []) ∧
    (eventMessages [SyncTargetType.program] okOracle 0
      (.sceneChanged "Camera 2") =
      [SyncMessage.mk' .sceneChange .program
        (.obj [("scene_name", .str "Camera 2")]) 0]) ∧
    ((sendInitialState okOracle 0).map (fun m => m.target_type) =
      [SyncTargetType.program]) :=
  ⟨(eventMessages_target_filter [SyncTargetType.program] okOracle 0).2.1 "Logo",
   (eventMessages_target_filter [SyncTargetType.program] okOracle 0).2.2.1
     "Camera 2",
   (eventMessages_target_filter [SyncTargetType.program] okOracle 0).2.2.2
     "S1" ["S1"] rfl rfl rfl⟩

/-- Counterexample to C2 as stated: a connected session whose
`current_program_scene` read fails enqueues no `StateSync` at all. -/
theorem sendInitialState_top_level_failure :
    topFailOracle.connected = true ∧ sendInitialState topFailOracle 0 = [] :=
  ⟨rfl, rfl⟩

/-- C2 (amended): when the session is connected and the top-level reads
(`current_program_scene`, `list_scenes`) succeed, `send_initial_state`
enqueues exactly one `StateSync`, even when every per-item read fails: a
failed transform read sets the item's `transform` to `null`, a failed image
read sets `image_data` to `null`, and a failed filter-list read leaves an
empty `filters` array. -/
theorem sendInitialState_snapshot_resilience (o : MasterOracle) (now : Int)
    (progScene : String) (scenes : List String)
    (hc : o.connected = true)
    (hp : o.currentProgramScene = .ok progScene)
    (hl : o.sceneList = .ok scenes) :
    (sendInitialState o now).length = 1 ∧
    (∀ m ∈ sendInitialState o now,
      m.message_type = SyncMessageType.stateSync) ∧
    (∀ sceneName item e, o.transform sceneName item.id = .error e →
      (itemSnapshotJson o sceneName item).getField "transform" =
        some .null) ∧
    (∀ sceneName item, imageDataForSource o item.source_name = none →
      (itemSnapshotJson o sceneName item).getField "image_data" =
        some .null) ∧
    (∀ sceneName item e, o.filters item.source_name = .error e →
      (itemSnapshotJson o sceneName item).getField "filters" =
        some (.arr [])) := by
  refine ⟨?_, ?_, ?_, ?_, ?_⟩
  · simp [sendInitialState, hc, hp, hl]
  · intro m hm
    simp [sendInitialState, hc, hp, hl, SyncMessage.mk'] at hm
    simp [hm, SyncMessage.mk']
  · intro sceneName item e h
    simp [itemSnapshotJson, h, Json.getField, List.lookup]
  · intro sceneName item h
    simp [itemSnapshotJson, h, Json.getField, List.lookup]
  · intro sceneName item e h
    simp [itemSnapshotJson, h, Json.getField, List.lookup]

/-- Witness for C2 at a concrete oracle: one scene with one image item whose
transform, image and filter reads all fail — the snapshot is still the one
enqueued `StateSync` and the item's optional fields are `null`. -/
theorem sendInitialState_snapshot_resilience_witness :
    (itemFailOracle.connected = true ∧
      itemFailOracle.currentProgramScene = .ok "S1" ∧
      itemFailOracle.sceneList = .ok ["S1"]) ∧
    ((sendInitialState itemFailOracle 0).length = 1 ∧
      (∀ m ∈ sendInitialState itemFailOracle 0,
        m.message_type = SyncMessageType.stateSync) ∧
      (∀ sceneName item e,
        itemFailOracle.transform sceneName item.id = .error e →
        (itemSnapshotJson itemFailOracle sceneName item).getField
          "transform" = some .null) ∧
      (∀ sceneName item,
        imageDataForSource itemFailOracle item.source_name = none →
        (itemSnapshotJson itemFailOracle sceneName item).getField
          "image_data" = some .null) ∧
      (∀ sceneName item e,
        itemFailOracle.filters item.source_name = .error e →
        (itemSnapshotJson itemFailOracle sceneName item).getField
          "filters" = some (.arr []))) :=
  ⟨⟨rfl, rfl, rfl⟩,
   sendInitialState_snapshot_resilience itemFailOracle 0 "S1" ["S1"]
     rfl rfl rfl⟩

/-! ## Slave engine (`sync/slave.rs`) -/

/-- `AlertSeverity` from `slave.rs`. -/
inductive AlertSeverity where
  | warning
  | error
deriving DecidableEq, Repr

/-- `DesyncAlert` from `slave.rs`.  The random `id` (uuid) and the wall-clock
`timestamp` are omitted from the model: they are fresh nondeterministic
labels that no logic reads. -/
structure DesyncAlert where
  scene_name : String
  source_name : String
  message : String
  severity : AlertSeverity

/-- A BC-API mutation or read issued by the slave applier. -/
inductive BCCall where
  | setCurrentProgramScene (scene : String)
  | setCurrentPreviewScene (scene : String)
  | getTransform (scene : String) (item : Int)
  | setTransform (scene : String) (item : Int) (t : SceneItemTransform)
  | setInputSettings (input : String) (settings : Json)
  | setFilterSettings (source filter_name : String) (settings : Json)
  | setFilterEnabled (source filter_name : String) (enabled : Bool)
  | createSceneItem (scene source : String) (enabled : Option Bool)
  | removeSceneItem (scene : String) (item : Int)
  | setSceneItemEnabled (scene : String) (item : Int) (enabled : Bool)

/-- One observable step of the slave applier: the projection write, a BC-API
call, or an emitted desync alert. -/
inductive SlaveStep where
  | projectionUpdate (p : Json)
  | call (c : BCCall)
  | alert (a : DesyncAlert)

/-- Oracle for the slave's BC-API session and local filesystem.
`connected` models `client_lock.as_ref()` being `Some`; each mutation field
gives the deterministic outcome the broadcasting application would report;
`decodeBase64` and `writeFile` model the image-cache filesystem path;
`tempDir` models `std::env::temp_dir()` and `now` the
`chrono::Utc::now().timestamp_millis()` used in cache file names. -/
structure SlaveOracle where
  connected : Bool
  getTransform : String → Int → Except String SceneItemTransform
  setTransform : String → Int → SceneItemTransform → Except String Unit
  setCurrentProgramScene : String → Except String Unit
  setCurrentPreviewScene : String → Except String Unit
  setInputSettings : String → Json → Except String Unit
  setFilterSettings : String → String → Json → Except String Unit
  setFilterEnabled : String → String → Bool → Except String Unit
  createSceneItem : String → String → Option Bool → Except String Int
  removeSceneItem : String → Int → Except String Unit
  setSceneItemEnabled : String → Int → Bool → Except String Unit
  decodeBase64 : String → Except String (List Nat)
  createDir : Except String Unit
  writeFile : String → List Nat → Except String Unit
  tempDir : String
  now : Int

/-- `SlaveSync::update_expected_state`: the projection update rules.
`SceneChange` writes `payload.scene_name` into `current_scene`, `StateSync`
writes `payload.current_program_scene`; every other type is a no-op. -/
def updateExpectedState (expected : Json) (message : SyncMessage) : Json :=
  match message.message_type with
  | .sceneChange =>
      match (message.payload.getField "scene_name").bind Json.asStr with
      | some scene_name => expected.setField "current_scene" (.str scene_name)
      | none => expected
  | .stateSync =>
      match (message.payload.getField "current_program_scene").bind
          Json.asStr with
      | some current_scene =>
          expected.setField "current_scene" (.str current_scene)
      | none => expected
  | _ => expected

/-- `SlaveSync::detect_image_format`: magic-byte sniffing with a `png`
default. -/
def detectImageFormat (data : List Nat) : String :=
  match data with
  | 0x89 :: 0x50 :: 0x4E :: 0x47 :: _ => "png"
  | 0xFF :: 0xD8 :: 0xFF :: _ :: _ => "jpg"
  | 0x47 :: 0x49 :: 0x46 :: 0x38 :: _ => "gif"
  | 0x42 :: 0x4D :: _ :: _ :: _ => "bmp"
  | 0x52 :: 0x49 :: 0x46 :: 0x46 :: 0x57 :: 0x45 :: 0x42 :: 0x50 :: _ =>
      "webp"
  | _ => "png"

/-- The file-name component of a path (model of `Path::file_name`). -/
def pathFileName (p : String) : String :=
  ((p.replace "\\" "/").splitOn "/").getLastD ""

/-- Model of `Path::extension`: the part after the last dot of the file
name, `none` when there is no dot or the name is a lone hidden file. -/
def pathExtension (p : String) : Option String :=
  match (pathFileName p).splitOn "." with
  | [] => none
  | [_] => none
  | parts =>
      if parts.headD "" = "" ∧ parts.length = 2 then none
      else some (parts.getLastD "")

/-- Model of `Path::file_stem`: the file name minus its extension. -/
def pathFileStem (p : String) : Option String :=
  let name := pathFileName p
  if name = "" then none
  else
    match pathExtension p with
    | some ext => some (name.dropRight (ext.length + 1))
    | none => some name

/-- `SlaveSync::apply_transform`: read the current transform, overwrite the
five protocol scalars with payload values (falling back to the current value
when a scalar is absent or non-numeric), keep everything else, and set the
result.  Returns the call trace and the outcome. -/
def applyTransform (o : SlaveOracle) (scene_name : String)
    (scene_item_id : Int) (transform : List (String × Json)) :
    List SlaveStep × Except String Unit :=
  match o.getTransform scene_name scene_item_id with
  | .error e =>
      ([.call (.getTransform scene_name scene_item_id)],
       .error ("Failed to get current transform: " ++ e))
  | .ok current =>
      let position_x :=
        ((transform.lookup "position_x").bind Json.asNum).getD
          current.position_x
      let position_y :=
        ((transform.lookup "position_y").bind Json.asNum).getD
          current.position_y
      let scale_x :=
        ((transform.lookup "scale_x").bind Json.asNum).getD current.scale_x
      let scale_y :=
        ((transform.lookup "scale_y").bind Json.asNum).getD current.scale_y
      let rotation :=
        ((transform.lookup "rotation").bind Json.asNum).getD current.rotation
      let newTransform :=
        { current with
          position_x := position_x
          position_y := position_y
          scale_x := scale_x
          scale_y := scale_y
          rotation := rotation }
      let calls := [SlaveStep.call (.getTransform scene_name scene_item_id),
        SlaveStep.call (.setTransform scene_name scene_item_id newTransform)]
      match o.setTransform scene_name scene_item_id newTransform with
      | .ok _ => (calls, .ok ())
      | .error e => (calls, .error ("Failed to set transform: " ++ e))

/-- `SlaveSync::handle_image_update`: decode the base64 payload, pick the
cache file name (original extension, else magic bytes), write the bytes
under `<temp>/obs-sync/`, then point the input's `file` setting at the new
path.  `image_data = None` is a no-op. -/
def handleImageUpdate (o : SlaveOracle) (source_name : String)
    (original_file_path : String) (image_data : Option String) :
    List SlaveStep × Except String Unit :=
  match image_data with
  | none => ([], .ok ())
  | some encoded =>
      match o.decodeBase64 encoded with
      | .error e => ([], .error ("Failed to decode image data: " ++ e))
      | .ok decoded =>
          let fileExtension :=
            if original_file_path ≠ "" then
              (pathExtension original_file_path).getD
                (detectImageFormat decoded)
            else detectImageFormat decoded
          match o.createDir with
          | .error e =>
              ([], .error ("Failed to create temp directory: " ++ e))
          | .ok _ =>
              let stemBase :=
                if original_file_path ≠ "" then
                  (pathFileStem original_file_path).getD source_name
                else source_name
              let tempFilePath := o.tempDir ++ "/obs-sync/" ++
                ((stemBase.replace "/" "_").replace "\\" "_") ++ "_" ++
                toString o.now ++ "." ++ fileExtension
              match o.writeFile tempFilePath decoded with
              | .error e =>
                  ([], .error ("Failed to write image file: " ++ e))
              | .ok _ =>
                  let settings := Json.obj [("file", .str tempFilePath)]
                  match o.setInputSettings source_name settings with
                  | .ok _ =>
                      ([.call (.setInputSettings source_name settings)],
                       .ok ())
                  | .error e =>
                      ([.call (.setInputSettings source_name settings)],
                       .error ("Failed to apply image: " ++ e))

/-- `SlaveSync::apply_filter_settings`: overlay-apply the filter settings
object. -/
def applyFilterSettings (o : SlaveOracle) (source_name filter_name : String)
    (filter_settings : List (String × Json)) :
    List SlaveStep × Except String Unit :=
  let settings := Json.obj filter_settings
  let call := SlaveStep.call
    (.setFilterSettings source_name filter_name settings)
  match o.setFilterSettings source_name filter_name settings with
  | .ok _ => ([call], .ok ())
  | .error e => ([call], .error ("Failed to set filter settings: " ++ e))

/-- `SlaveSync::send_alert` (the alert constructor; uuid/timestamp
omitted). -/
def sendAlertStep (scene_name source_name message : String)
    (severity : AlertSeverity) : SlaveStep :=
  .alert { scene_name := scene_name, source_name := source_name,
           message := message, severity := severity }

/-- `TransformData` from `protocol.rs` (seven required floats). -/
structure TransformData where
  position_x : ℚ
  position_y : ℚ
  rotation : ℚ
  scale_x : ℚ
  scale_y : ℚ
  width : ℚ
  height : ℚ

/-- `SourceUpdateAction` from `protocol.rs`. -/
inductive SourceUpdateAction where
  | created
  | removed
  | enabledStateChanged
  | settingsChanged
deriving DecidableEq, Repr

/-- `SourceUpdatePayload` from `protocol.rs`. -/
structure SourceUpdatePayload where
  scene_name : String
  scene_item_id : Int
  source_name : String
  action : SourceUpdateAction
  source_type : Option String
  scene_item_enabled : Option Bool
  transform : Option TransformData

/-- Serde deserialization of `SourceUpdateAction` (`snake_case`
discriminants). -/
def SourceUpdateAction.ofWireName (s : String) : Option SourceUpdateAction :=
  if s = "created" then some .created
  else if s = "removed" then some .removed
  else if s = "enabled_state_changed" then some .enabledStateChanged
  else if s = "settings_changed" then some .settingsChanged
  else none

/-- Serde decode of an `Option<String>` field: absent or `null` gives
`none`; a non-string value is a parse error. -/
def optStrField (j : Json) (k : String) : Option (Option String) :=
  match j.getField k with
  | none => some none
  | some .null => some none
  | some (.str s) => some (some s)
  | some _ => none

/-- Serde decode of an `Option<bool>` field. -/
def optBoolField (j : Json) (k : String) : Option (Option Bool) :=
  match j.getField k with
  | none => some none
  | some .null => some none
  | some (.bool b) => some (some b)
  | some _ => none

/-- Serde decode of `TransformData` (all seven floats required). -/
def decodeTransformData (j : Json) : Option TransformData := do
  let px ← (j.getField "position_x").bind Json.asNum
  let py ← (j.getField "position_y").bind Json.asNum
  let rot ← (j.getField "rotation").bind Json.asNum
  let sx ← (j.getField "scale_x").bind Json.asNum
  let sy ← (j.getField "scale_y").bind Json.asNum
  let w ← (j.getField "width").bind Json.asNum
  let h ← (j.getField "height").bind Json.asNum
  some { position_x := px, position_y := py, rotation := rot, scale_x := sx,
         scale_y := sy, width := w, height := h }

/-- Serde decode of an `Option<TransformData>` field. -/
def optTransformField (j : Json) (k : String) :
    Option (Option TransformData) :=
  match j.getField k with
  | none => some none
  | some .null => some none
  | some t =>
      match decodeTransformData t with
      | some td => some (some td)
      | none => none

/-- Serde deserialization of `SourceUpdatePayload` (the
`serde_json::from_value` call in the `SourceUpdate` branch). -/
def decodeSourceUpdatePayload (j : Json) : Option SourceUpdatePayload := do
  let scene_name ← (j.getField "scene_name").bind Json.asStr
  let scene_item_id ← (j.getField "scene_item_id").bind Json.asInt
  let source_name ← (j.getField "source_name").bind Json.asStr
  let actionStr ← (j.getField "action").bind Json.asStr
  let action ← SourceUpdateAction.ofWireName actionStr
  let source_type ← optStrField j "source_type"
  let scene_item_enabled ← optBoolField j "scene_item_enabled"
  let transform ← optTransformField j "transform"
  some { scene_name := scene_name, scene_item_id := scene_item_id,
         source_name := source_name, action := action,
         source_type := source_type,
         scene_item_enabled := scene_item_enabled, transform := transform }

/-- The transform map rebuilt by the `Created` arm
(`json!({...}).as_object()`). -/
def transformDataFields (t : TransformData) : List (String × Json) :=
  [("position_x", .num t.position_x), ("position_y", .num t.position_y),
   ("rotation", .num t.rotation), ("scale_x", .num t.scale_x),
   ("scale_y", .num t.scale_y), ("width", .num t.width),
   ("height", .num t.height)]

/-- The steps of the `SourceUpdate` arm of `apply_sync_message`, after a
successful payload parse. -/
def sourceUpdateSteps (o : SlaveOracle) (p : SourceUpdatePayload) :
    List SlaveStep :=
  match p.action with
  | .created =>
      let call := SlaveStep.call
        (.createSceneItem p.scene_name p.source_name p.scene_item_enabled)
      match o.createSceneItem p.scene_name p.source_name
          p.scene_item_enabled with
      | .ok new_item_id =>
          call ::
            (match p.transform with
            | some t =>
                (applyTransform o p.scene_name new_item_id
                  (transformDataFields t)).1
            | none => [])
      | .error e =>
          [call,
           sendAlertStep p.scene_name p.source_name
             ("Failed to create scene item: " ++ e) .warning]
  | .removed =>
      let call := SlaveStep.call (.removeSceneItem p.scene_name p.scene_item_id)
      match o.removeSceneItem p.scene_name p.scene_item_id with
      | .ok _ => [call]
      | .error e =>
          [call,
           sendAlertStep p.scene_name p.source_name
             ("Failed to remove scene item: " ++ e) .warning]
  | .enabledStateChanged =>
      match p.scene_item_enabled with
      | some enabled =>
          let call := SlaveStep.call
            (.setSceneItemEnabled p.scene_name p.scene_item_id enabled)
          match o.setSceneItemEnabled p.scene_name p.scene_item_id enabled with
          | .ok _ => [call]
          | .error e =>
              [call,
               sendAlertStep p.scene_name p.source_name
                 ("Failed to set scene item enabled state: " ++ e) .warning]
      | none => []
  | .settingsChanged => []

/-- The `scene_item_id` of a snapshot item (`as_i64().unwrap_or(0)`). -/
def itemSceneItemId (item : Json) : Int :=
  ((item.getField "scene_item_id").bind Json.asInt).getD 0

/-- The `source_name` of a snapshot item (`as_str().unwrap_or("")`). -/
def itemSourceName (item : Json) : String :=
  ((item.getField "source_name").bind Json.asStr).getD ""

/-- The transform attempt for one snapshot item of a `StateSync` (errors
are only logged). -/
def itemTransformSteps (o : SlaveOracle) (scene_name : String)
    (item : Json) : List SlaveStep :=
  match (item.getField "transform").bind Json.asObj with
  | some tr => (applyTransform o scene_name (itemSceneItemId item) tr).1
  | none => []

/-- The image attempt for one snapshot item of a `StateSync`: only when
both `file` and `data` are present (errors are only logged). -/
def itemImageSteps (o : SlaveOracle) (item : Json) : List SlaveStep :=
  match (item.getField "image_data").bind Json.asObj with
  | some imgObj =>
      match (imgObj.lookup "file").bind Json.asStr,
          (imgObj.lookup "data").bind Json.asStr with
      | some file, some data =>
          (handleImageUpdate o (itemSourceName item) file (some data)).1
      | _, _ => []
  | none => []

/-- One filter of a snapshot item: apply its settings, and on success set
its enabled flag (errors are only logged). -/
def filterEntrySteps (o : SlaveOracle) (source_name : String)
    (filter : Json) : List SlaveStep :=
  let filter_name := ((filter.getField "name").bind Json.asStr).getD ""
  let filter_enabled :=
    ((filter.getField "enabled").bind Json.asBool).getD true
  match (filter.getField "settings").bind Json.asObj with
  | some fs =>
      match applyFilterSettings o source_name filter_name fs with
      | (steps, .ok _) =>
          steps ++
            [.call (.setFilterEnabled source_name filter_name
              filter_enabled)]
      | (steps, .error _) => steps
  | none => []

/-- The filter walk for one snapshot item of a `StateSync`. -/
def itemFilterSteps (o : SlaveOracle) (item : Json) : List SlaveStep :=
  match (item.getField "filters").bind Json.asArr with
  | some filters => filters.flatMap (filterEntrySteps o (itemSourceName item))
  | none => []

/-- The steps produced for a single snapshot item inside the `StateSync`
arm: attempt the transform (when present), then the image, then the
filters.  Per-item errors are only logged, so no alert step arises here. -/
def stateSyncItemSteps (o : SlaveOracle) (scene_name : String) (item : Json) :
    List SlaveStep :=
  itemTransformSteps o scene_name item ++ itemImageSteps o item ++
    itemFilterSteps o item

/-- The scene/item walk of the `StateSync` arm: every scene's items are
visited in order. -/
def stateSyncSceneWalkSteps (o : SlaveOracle) (payload : Json) :
    List SlaveStep :=
  match (payload.getField "scenes").bind Json.asArr with
  | some scenes =>
      scenes.flatMap fun scene =>
        let scene_name := ((scene.getField "name").bind Json.asStr).getD ""
        match (scene.getField "items").bind Json.asArr with
        | some items =>
            items.flatMap fun item => stateSyncItemSteps o scene_name item
        | none => []
  | none => []

/-- The program-scene application after the walk (failure alerts at
Warning). -/
def stateSyncProgramSteps (o : SlaveOracle) (payload : Json) :
    List SlaveStep :=
  match (payload.getField "current_program_scene").bind Json.asStr with
  | some scene_name =>
      match o.setCurrentProgramScene scene_name with
      | .ok _ => [SlaveStep.call (.setCurrentProgramScene scene_name)]
      | .error e =>
          [SlaveStep.call (.setCurrentProgramScene scene_name),
           sendAlertStep scene_name ""
             ("Failed to sync initial scene: " ++ e) .warning]
  | none => []

/-- The preview-scene attempt after the program scene (failure alerts at
Warning — studio mode may be off on the slave). -/
def stateSyncPreviewSteps (o : SlaveOracle) (payload : Json) :
    List SlaveStep :=
  match (payload.getField "current_preview_scene").bind Json.asStr with
  | some preview_scene =>
      match o.setCurrentPreviewScene preview_scene with
      | .ok _ => [SlaveStep.call (.setCurrentPreviewScene preview_scene)]
      | .error e =>
          [SlaveStep.call (.setCurrentPreviewScene preview_scene),
           sendAlertStep preview_scene ""
             ("Failed to sync preview scene: " ++ e ++
               " (Studio Mode may not be enabled)") .warning]
  | none => []

/-- The steps of the `StateSync` arm of `apply_sync_message`: walk every
scene's items, then set the program scene, then attempt the preview
scene. -/
def stateSyncSteps (o : SlaveOracle) (payload : Json) : List SlaveStep :=
  stateSyncSceneWalkSteps o payload ++ stateSyncProgramSteps o payload ++
    stateSyncPreviewSteps o payload

/-- The dispatch body of `apply_sync_message` (everything after the
connectivity check), returning the steps and the function's `Result`. -/
def applyBody (o : SlaveOracle) (message : SyncMessage) :
    List SlaveStep × Except String Unit :=
  match message.message_type with
  | .sceneChange =>
      match (message.payload.getField "scene_name").bind Json.asStr with
      | none => ([], .error "Invalid scene_name in payload")
      | some scene_name =>
          match o.setCurrentProgramScene scene_name with
          | .ok _ =>
              ([.call (.setCurrentProgramScene scene_name)], .ok ())
          | .error e =>
              ([.call (.setCurrentProgramScene scene_name),
                sendAlertStep scene_name ""
                  ("Failed to change scene: " ++ e) .error], .ok ())
  | .transformUpdate =>
      match (message.payload.getField "scene_name").bind Json.asStr with
      | none => ([], .error "Invalid scene_name")
      | some scene_name =>
          match (message.payload.getField "scene_item_id").bind Json.asInt with
          | none => ([], .error "Invalid scene_item_id")
          | some scene_item_id =>
              match (message.payload.getField "transform").bind Json.asObj with
              | some tr =>
                  match applyTransform o scene_name scene_item_id tr with
                  | (steps, .ok _) => (steps, .ok ())
                  | (steps, .error e) =>
                      (steps ++
                        [sendAlertStep scene_name ""
                          ("Failed to update transform: " ++ e) .warning],
                       .ok ())
              | none => ([], .ok ())
  | .imageUpdate =>
      match (message.payload.getField "source_name").bind Json.asStr with
      | none => ([], .error "Invalid source_name")
      | some source_name =>
          let file_path :=
            ((message.payload.getField "file").bind Json.asStr).getD ""
          let image_data :=
            (message.payload.getField "image_data").bind Json.asStr
          match handleImageUpdate o source_name file_path image_data with
          | (steps, .ok _) => (steps, .ok ())
          | (steps, .error e) =>
              (steps ++
                [sendAlertStep "" source_name
                  ("Failed to update image: " ++ e) .warning], .ok ())
  | .filterUpdate =>
      match (message.payload.getField "source_name").bind Json.asStr with
      | none => ([], .error "Invalid source_name")
      | some source_name =>
          match (message.payload.getField "filter_name").bind Json.asStr with
          | none => ([], .error "Invalid filter_name")
          | some filter_name =>
              match (message.payload.getField "filter_settings").bind
                  Json.asObj with
              | some fs =>
                  match applyFilterSettings o source_name filter_name fs with
                  | (steps, .ok _) => (steps, .ok ())
                  | (steps, .error e) =>
                      (steps ++
                        [sendAlertStep "" source_name
                          ("Failed to update filter " ++ filter_name ++
                            ": " ++ e) .warning], .ok ())
              | none => ([], .ok ())
  | .sourceUpdate =>
      match decodeSourceUpdatePayload message.payload with
      | none => ([], .error "Failed to parse SourceUpdatePayload")
      | some p => (sourceUpdateSteps o p, .ok ())
  | .heartbeat => ([], .ok ())
  | .stateSync => (stateSyncSteps o message.payload, .ok ())
  | .stateSyncRequest => ([], .ok ())
  | .stateReport => ([], .ok ())

/-- `SlaveSync::apply_sync_message`: updates the expected-state projection
first, then — when the BC-API session is connected — runs the per-type
dispatch.  Returns the new projection, the step trace (the projection write
is always the first step) and the `Result`. -/
def applySyncMessage (o : SlaveOracle) (expected : Json)
    (message : SyncMessage) :
    Json × List SlaveStep × Except String Unit :=
  let expected2 := updateExpectedState expected message
  if o.connected then
    let (steps, res) := applyBody o message
    (expected2, .projectionUpdate expected2 :: steps, res)
  else
    (expected2, [.projectionUpdate expected2],
     .error "OBS client not connected")

/-- Whether a step is an alert emission. -/
def isAlertStep : SlaveStep → Bool
  | .alert _ => true
  | _ => false

/-- A slave oracle that accepts every mutation except the preview-scene
change (studio mode off), with an all-defaults current transform. -/
def slaveOkOracle : SlaveOracle where
  connected := true
  getTransform := fun _ _ =>
    .ok { position_x := 0, position_y := 0, rotation := 0, scale_x := 1,
          scale_y := 1, width := 100, height := 50, crop_left := 0,
          crop_right := 0, crop_top := 0, crop_bottom := 0 }
  setTransform := fun _ _ _ => .ok ()
  setCurrentProgramScene := fun _ => .ok ()
  setCurrentPreviewScene := fun _ => .error "studio mode is not enabled"
  setInputSettings := fun _ _ => .ok ()
  setFilterSettings := fun _ _ _ => .ok ()
  setFilterEnabled := fun _ _ _ => .ok ()
  createSceneItem := fun _ _ _ => .ok 1
  removeSceneItem := fun _ _ => .ok ()
  setSceneItemEnabled := fun _ _ _ => .ok ()
  decodeBase64 := fun _ => .ok [0x89, 0x50, 0x4E, 0x47]
  createDir := .ok ()
  writeFile := fun _ _ => .ok ()
  tempDir := "/tmp"
  now := 0

end ObsSync

namespace ObsSync

/-- C4: for every envelope processed by the slave applier, the projection
update is the first step of the iteration — it happens before any BC-API
mutation — and follows the rules: `SceneChange` writes `payload.scene_name`
to `current_scene`, `StateSync` writes `payload.current_program_scene`, any
other type leaves the projection unchanged. -/
theorem applySyncMessage_projection_first (o : SlaveOracle) (expected : Json)
    (message : SyncMessage) :
    ((applySyncMessage o expected message).2.1.head? =
      some (.projectionUpdate (updateExpectedState expected message))) ∧
    ((applySyncMessage o expected message).1 =
      updateExpectedState expected message) ∧
    (∀ s, message.message_type = SyncMessageType.sceneChange →
      (message.payload.getField "scene_name").bind Json.asStr = some s →
      updateExpectedState expected message =
        expected.setField "current_scene" (.str s)) ∧
    (∀ s, message.message_type = SyncMessageType.stateSync →
      (message.payload.getField "current_program_scene").bind Json.asStr =
        some s →
      updateExpectedState expected message =
        expected.setField "current_scene" (.str s)) ∧
    (message.message_type ≠ SyncMessageType.sceneChange →
      message.message_type ≠ SyncMessageType.stateSync →
      updateExpectedState expected message = expected) := by
  refine ⟨?_, ?_, ?_, ?_, ?_⟩
  · simp only [applySyncMessage]
    by_cases hc : o.connected <;> simp [hc]
  · simp only [applySyncMessage]
    by_cases hc : o.connected <;> simp [hc]
  · intro s hmt hs
    simp [updateExpectedState, hmt, hs]
  · intro s hmt hs
    simp [updateExpectedState, hmt, hs]
  · intro h1 h2
    cases hm : message.message_type <;> simp_all [updateExpectedState]

/-- Witness for C4 at a concrete envelope: a `SceneChange` to
`"Camera 2"` against an empty projection. -/
theorem applySyncMessage_projection_first_witness :
    ((applySyncMessage slaveOkOracle (Json.obj [])
      { message_type := .sceneChange, timestamp := 5,
        target_type := .program,
        payload := Json.obj [("scene_name", Json.str "Camera 2")] }).2.1.head? =
      some (.projectionUpdate (updateExpectedState (Json.obj [])
        { message_type := .sceneChange, timestamp := 5,
          target_type := .program,
          payload := Json.obj [("scene_name", Json.str "Camera 2")] }))) ∧
    ((applySyncMessage slaveOkOracle (Json.obj [])
      { message_type := .sceneChange, timestamp := 5,
        target_type := .program,
        payload := Json.obj [("scene_name", Json.str "Camera 2")] }).1 =
      updateExpectedState (Json.obj [])
        { message_type := .sceneChange, timestamp := 5,
          target_type := .program,
          payload := Json.obj [("scene_name", Json.str "Camera 2")] }) ∧
    (∀ s, SyncMessageType.sceneChange = SyncMessageType.sceneChange →
      ((Json.obj [("scene_name", Json.str "Camera 2")]).getField
        "scene_name").bind Json.asStr = some s →
      updateExpectedState (Json.obj [])
        { message_type := .sceneChange, timestamp := 5,
          target_type := .program,
          payload := Json.obj [("scene_name", Json.str "Camera 2")] } =
        (Json.obj []).setField "current_scene" (.str s)) ∧
    (∀ s, SyncMessageType.sceneChange = SyncMessageType.stateSync →
      ((Json.obj [("scene_name", Json.str "Camera 2")]).getField
        "current_program_scene").bind Json.asStr = some s →
      updateExpectedState (Json.obj [])
        { message_type := .sceneChange, timestamp := 5,
          target_type := .program,
          payload := Json.obj [("scene_name", Json.str "Camera 2")] } =
        (Json.obj []).setField "current_scene" (.str s)) ∧
    (SyncMessageType.sceneChange ≠ SyncMessageType.sceneChange →
      SyncMessageType.sceneChange ≠ SyncMessageType.stateSync →
      updateExpectedState (Json.obj [])
        { message_type := .sceneChange, timestamp := 5,
          target_type := .program,
          payload := Json.obj [("scene_name", Json.str "Camera 2")] } =
        Json.obj []) :=
  applySyncMessage_projection_first slaveOkOracle (Json.obj [])
    { message_type := .sceneChange, timestamp := 5, target_type := .program,
      payload := Json.obj [("scene_name", Json.str "Camera 2")] }

/-- C6: applying a `TransformUpdate` reads the current transform and sets a
transform whose `position_x, position_y, scale_x, scale_y, rotation` come
from the payload (falling back to the current value when absent) while
`width`, `height` and the crop fields keep their current local values. -/
theorem applyTransform_overwrites_scalars (o : SlaveOracle)
    (scene_name : String) (scene_item_id : Int)
    (transform : List (String × Json)) (current : SceneItemTransform)
    (h : o.getTransform scene_name scene_item_id = .ok current) :
    ∃ t, (applyTransform o scene_name scene_item_id transform).1 =
        [.call (.getTransform scene_name scene_item_id),
         .call (.setTransform scene_name scene_item_id t)] ∧
      t.position_x = ((transform.lookup "position_x").bind Json.asNum).getD
        current.position_x ∧
      t.position_y = ((transform.lookup "position_y").bind Json.asNum).getD
        current.position_y ∧
      t.scale_x = ((transform.lookup "scale_x").bind Json.asNum).getD
        current.scale_x ∧
      t.scale_y = ((transform.lookup "scale_y").bind Json.asNum).getD
        current.scale_y ∧
      t.rotation = ((transform.lookup "rotation").bind Json.asNum).getD
        current.rotation ∧
      t.width = current.width ∧ t.height = current.height ∧
      t.crop_left = current.crop_left ∧ t.crop_right = current.crop_right ∧
      t.crop_top = current.crop_top ∧ t.crop_bottom = current.crop_bottom ∧
      (transform.lookup "position_x" = none →
        t.position_x = current.position_x) ∧
      (transform.lookup "position_y" = none →
        t.position_y = current.position_y) ∧
      (transform.lookup "scale_x" = none → t.scale_x = current.scale_x) ∧
      (transform.lookup "scale_y" = none → t.scale_y = current.scale_y) ∧
      (transform.lookup "rotation" = none → t.rotation = current.rotation) := by
  refine ⟨{ current with
      position_x := ((transform.lookup "position_x").bind Json.asNum).getD
        current.position_x
      position_y := ((transform.lookup "position_y").bind Json.asNum).getD
        current.position_y
      scale_x := ((transform.lookup "scale_x").bind Json.asNum).getD
        current.scale_x
      scale_y := ((transform.lookup "scale_y").bind Json.asNum).getD
        current.scale_y
      rotation := ((transform.lookup "rotation").bind Json.asNum).getD
        current.rotation }, ?_, rfl, rfl, rfl, rfl, rfl, rfl, rfl, rfl, rfl,
    rfl, rfl, ?_, ?_, ?_, ?_, ?_⟩
  · simp only [applyTransform, h]
    split <;> rfl
  all_goals intro hnone
  all_goals simp [hnone]

/-- Witness for C6 at a concrete payload carrying only `position_x`: the
other scalars and the width/height/crop fields keep the current values. -/
theorem applyTransform_overwrites_scalars_witness :
    (slaveOkOracle.getTransform "S1" 1 =
      .ok { position_x := 0, position_y := 0, rotation := 0, scale_x := 1,
            scale_y := 1, width := 100, height := 50, crop_left := 0,
            crop_right := 0, crop_top := 0, crop_bottom := 0 }) ∧
    (∃ t, (applyTransform slaveOkOracle "S1" 1
        [("position_x", Json.num 7)]).1 =
        [.call (.getTransform "S1" 1), .call (.setTransform "S1" 1 t)] ∧
      t.position_x = (([(("position_x" : String), Json.num 7)].lookup
        "position_x").bind Json.asNum).getD 0 ∧
      t.position_y = (([(("position_x" : String), Json.num 7)].lookup
        "position_y").bind Json.asNum).getD 0 ∧
      t.scale_x = (([(("position_x" : String), Json.num 7)].lookup
        "scale_x").bind Json.asNum).getD 1 ∧
      t.scale_y = (([(("position_x" : String), Json.num 7)].lookup
        "scale_y").bind Json.asNum).getD 1 ∧
      t.rotation = (([(("position_x" : String), Json.num 7)].lookup
        "rotation").bind Json.asNum).getD 0 ∧
      t.width = 100 ∧ t.height = 50 ∧
      t.crop_left = 0 ∧ t.crop_right = 0 ∧ t.crop_top = 0 ∧
      t.crop_bottom = 0 ∧
      ([(("position_x" : String), Json.num 7)].lookup "position_x" = none →
        t.position_x = 0) ∧
      ([(("position_x" : String), Json.num 7)].lookup "position_y" = none →
        t.position_y = 0) ∧
      ([(("position_x" : String), Json.num 7)].lookup "scale_x" = none →
        t.scale_x = 1) ∧
      ([(("position_x" : String), Json.num 7)].lookup "scale_y" = none →
        t.scale_y = 1) ∧
      ([(("position_x" : String), Json.num 7)].lookup "rotation" = none →
        t.rotation = 0)) :=
  ⟨rfl, applyTransform_overwrites_scalars slaveOkOracle "S1" 1
    [("position_x", Json.num 7)] _ rfl⟩

/-- C10: the slave applier handles a `SceneChange` identically for every
`target_type` — it writes `payload.scene_name` into the projection's
`current_scene` and calls `set_current_program_scene`, never
`set_current_preview_scene`; and the master does produce a
Preview-targeted `SceneChange` for `CurrentPreviewSceneChanged`. -/
theorem sceneChange_target_irrelevant (o : SlaveOracle) (expected : Json)
    (ts : Int) (payload : Json) (t1 t2 : SyncTargetType) (s : String)
    (hs : (payload.getField "scene_name").bind Json.asStr = some s)
    (hc : o.connected = true) :
    (applySyncMessage o expected
        { message_type := .sceneChange, timestamp := ts, target_type := t1,
          payload := payload } =
      applySyncMessage o expected
        { message_type := .sceneChange, timestamp := ts, target_type := t2,
          payload := payload }) ∧
    ((applySyncMessage o expected
        { message_type := .sceneChange, timestamp := ts, target_type := t1,
          payload := payload }).1 =
      expected.setField "current_scene" (.str s)) ∧
    (SlaveStep.call (.setCurrentProgramScene s) ∈
      (applySyncMessage o expected
        { message_type := .sceneChange, timestamp := ts, target_type := t1,
          payload := payload }).2.1) ∧
    (∀ p, SlaveStep.call (.setCurrentPreviewScene p) ∉
      (applySyncMessage o expected
        { message_type := .sceneChange, timestamp := ts, target_type := t1,
          payload := payload }).2.1) ∧
    (∀ targets o2 now sn, SyncTargetType.preview ∈ targets →
      eventMessages targets o2 now (.currentPreviewSceneChanged sn) =
        [SyncMessage.mk' .sceneChange .preview
          (.obj [("scene_name", .str sn)]) now]) := by
  refine ⟨rfl, ?_, ?_, ?_, ?_⟩
  · simp [applySyncMessage, hc, updateExpectedState, hs]
  · simp only [applySyncMessage, hc, if_true, applyBody, hs,
      updateExpectedState]
    split <;> simp
  · intro p
    simp only [applySyncMessage, hc, if_true, applyBody, hs,
      updateExpectedState]
    split <;> simp [sendAlertStep]
  · intro targets o2 now sn hmem
    simp [eventMessages, hmem]

/-- Witness for C10: a Preview-targeted `SceneChange` for `"Stage"` makes
the slave change its program scene. -/
theorem sceneChange_target_irrelevant_witness :
    (((Json.obj [("scene_name", Json.str "Stage")]).getField
        "scene_name").bind Json.asStr = some "Stage") ∧
    (SlaveStep.call (.setCurrentProgramScene "Stage") ∈
      (applySyncMessage slaveOkOracle (Json.obj [])
        { message_type := .sceneChange, timestamp := 9,
          target_type := .preview,
          payload := Json.obj [("scene_name", Json.str "Stage")] }).2.1) ∧
    (∀ p, SlaveStep.call (.setCurrentPreviewScene p) ∉
      (applySyncMessage slaveOkOracle (Json.obj [])
        { message_type := .sceneChange, timestamp := 9,
          target_type := .preview,
          payload := Json.obj [("scene_name", Json.str "Stage")] }).2.1) :=
  ⟨rfl,
   (sceneChange_target_irrelevant slaveOkOracle (Json.obj []) 9
     (Json.obj [("scene_name", Json.str "Stage")]) .preview .program "Stage"
     rfl rfl).2.2.1,
   (sceneChange_target_irrelevant slaveOkOracle (Json.obj []) 9
     (Json.obj [("scene_name", Json.str "Stage")]) .preview .program "Stage"
     rfl rfl).2.2.2.1⟩

/-- `apply_transform` always begins by reading the current transform, so its
trace always records the read attempt. -/
lemma applyTransform_getTransform_mem (o : SlaveOracle) (s : String)
    (i : Int) (tr : List (String × Json)) :
    SlaveStep.call (.getTransform s i) ∈ (applyTransform o s i tr).1 := by
  simp only [applyTransform]
  repeat' split
  all_goals simp

/-- The trace of `apply_filter_settings` is always exactly the settings
call. -/
lemma applyFilterSettings_fst (o : SlaveOracle) (sn fn : String)
    (fs : List (String × Json)) :
    (applyFilterSettings o sn fn fs).1 =
      [.call (.setFilterSettings sn fn (Json.obj fs))] := by
  simp only [applyFilterSettings]
  split <;> rfl

/-- `apply_transform` emits no alert step. -/
lemma applyTransform_no_alert (o : SlaveOracle) (s : String) (i : Int)
    (tr : List (String × Json)) :
    ((applyTransform o s i tr).1).filter isAlertStep = [] := by
  simp only [applyTransform]
  repeat' split
  all_goals simp [isAlertStep]

/-- `handle_image_update` emits no alert step. -/
lemma handleImageUpdate_no_alert (o : SlaveOracle) (sn fp : String)
    (d : Option String) :
    ((handleImageUpdate o sn fp d).1).filter isAlertStep = [] := by
  simp only [handleImageUpdate]
  repeat' split
  all_goals simp [isAlertStep]

/-- A concatenation of per-element traces that are each alert-free is
alert-free. -/
lemma flatMap_filter_nil {α β : Type} (p : β → Bool) (l : List α)
    (f : α → List β) (h : ∀ x ∈ l, (f x).filter p = []) :
    (l.flatMap f).filter p = [] := by
  induction l with
  | nil => rfl
  | cons a t ih =>
      rw [List.flatMap_cons, List.filter_append, h a (List.mem_cons_self a t),
        List.nil_append]
      exact ih fun x hx => h x (List.mem_cons_of_mem _ hx)

/-- The transform attempt of a snapshot item emits no alert step. -/
lemma itemTransformSteps_no_alert (o : SlaveOracle) (sn : String)
    (item : Json) :
    (itemTransformSteps o sn item).filter isAlertStep = [] := by
  simp only [itemTransformSteps]
  split
  · apply applyTransform_no_alert
  · rfl

/-- The image attempt of a snapshot item emits no alert step. -/
lemma itemImageSteps_no_alert (o : SlaveOracle) (item : Json) :
    (itemImageSteps o item).filter isAlertStep = [] := by
  simp only [itemImageSteps]
  repeat' split
  all_goals first
    | apply handleImageUpdate_no_alert
    | rfl

/-- A single filter application of a snapshot item emits no alert step. -/
lemma filterEntrySteps_no_alert (o : SlaveOracle) (sn : String)
    (filter : Json) :
    (filterEntrySteps o sn filter).filter isAlertStep = [] := by
  simp only [filterEntrySteps]
  repeat' split
  all_goals first
    | rfl
    | (rename_i heq
       have hfst := congrArg Prod.fst heq
       rw [applyFilterSettings_fst] at hfst
       simp at hfst
       subst hfst
       simp [isAlertStep])

/-- The filter walk of a snapshot item emits no alert step. -/
lemma itemFilterSteps_no_alert (o : SlaveOracle) (item : Json) :
    (itemFilterSteps o item).filter isAlertStep = [] := by
  simp only [itemFilterSteps]
  split
  · apply flatMap_filter_nil
    intro filter hf
    apply filterEntrySteps_no_alert
  · rfl

/-- The per-item walk of a `StateSync` emits no alert step: item errors are
only logged. -/
lemma stateSyncItemSteps_no_alert (o : SlaveOracle) (sn : String)
    (item : Json) :
    (stateSyncItemSteps o sn item).filter isAlertStep = [] := by
  simp only [stateSyncItemSteps, List.filter_append,
    itemTransformSteps_no_alert, itemImageSteps_no_alert,
    itemFilterSteps_no_alert, List.append_nil, List.nil_append]

/-- The scene walk of a `StateSync` emits no alert step. -/
lemma stateSyncSceneWalkSteps_no_alert (o : SlaveOracle) (payload : Json) :
    (stateSyncSceneWalkSteps o payload).filter isAlertStep = [] := by
  simp only [stateSyncSceneWalkSteps]
  split
  · apply flatMap_filter_nil
    intro scene hscene
    split
    · apply flatMap_filter_nil
      intro item hitem
      apply stateSyncItemSteps_no_alert
    · rfl
  · rfl

/-- C5: applying a `StateSync` walks the full snapshot — every item's
transform attempt and every filter's settings call appear in the trace for
any oracle, in particular ones where earlier items fail — and a snapshot
carrying a preview scene while studio mode is off (preview set fails,
program set succeeds) produces exactly one alert, of Warning severity. -/
theorem stateSync_walks_all_items (o : SlaveOracle) (expected payload : Json)
    (ts : Int) (tt : SyncTargetType) (hc : o.connected = true) :
    (∀ scenes scene items item tr,
      (payload.getField "scenes").bind Json.asArr = some scenes →
      scene ∈ scenes →
      (scene.getField "items").bind Json.asArr = some items →
      item ∈ items →
      (item.getField "transform").bind Json.asObj = some tr →
      SlaveStep.call (.getTransform
          (((scene.getField "name").bind Json.asStr).getD "")
          (itemSceneItemId item)) ∈
        (applySyncMessage o expected
          { message_type := .stateSync, timestamp := ts, target_type := tt,
            payload := payload }).2.1) ∧
    (∀ scenes scene items item filters filter fs,
      (payload.getField "scenes").bind Json.asArr = some scenes →
      scene ∈ scenes →
      (scene.getField "items").bind Json.asArr = some items →
      item ∈ items →
      (item.getField "filters").bind Json.asArr = some filters →
      filter ∈ filters →
      (filter.getField "settings").bind Json.asObj = some fs →
      SlaveStep.call (.setFilterSettings (itemSourceName item)
          (((filter.getField "name").bind Json.asStr).getD "")
          (Json.obj fs)) ∈
        (applySyncMessage o expected
          { message_type := .stateSync, timestamp := ts, target_type := tt,
            payload := payload }).2.1) ∧
    (∀ p e s,
      (payload.getField "current_preview_scene").bind Json.asStr = some p →
      o.setCurrentPreviewScene p = .error e →
      (payload.getField "current_program_scene").bind Json.asStr = some s →
      o.setCurrentProgramScene s = .ok () →
      ((applySyncMessage o expected
          { message_type := .stateSync, timestamp := ts, target_type := tt,
            payload := payload }).2.1).filter isAlertStep =
        [sendAlertStep p ""
          ("Failed to sync preview scene: " ++ e ++
            " (Studio Mode may not be enabled)") .warning]) := by
  have htrace : (applySyncMessage o expected
      { message_type := .stateSync, timestamp := ts, target_type := tt,
        payload := payload }).2.1 =
      .projectionUpdate (updateExpectedState expected
        { message_type := .stateSync, timestamp := ts, target_type := tt,
          payload := payload }) :: stateSyncSteps o payload := by
    simp [applySyncMessage, hc, applyBody]
  refine ⟨?_, ?_, ?_⟩
  · intro scenes scene items item tr hscenes hscene hitems hitem htr
    rw [htrace]
    apply List.mem_cons_of_mem
    simp only [stateSyncSteps]
    refine List.mem_append_left _ (List.mem_append_left _ ?_)
    simp only [stateSyncSceneWalkSteps, hscenes]
    refine List.mem_flatMap.mpr ⟨scene, hscene, ?_⟩
    simp only [hitems]
    refine List.mem_flatMap.mpr ⟨item, hitem, ?_⟩
    simp only [stateSyncItemSteps]
    refine List.mem_append_left _ (List.mem_append_left _ ?_)
    simp only [itemTransformSteps, htr]
    exact applyTransform_getTransform_mem o _ _ tr
  · intro scenes scene items item filters filter fs hscenes hscene hitems
      hitem hfilters hfilter hfs
    rw [htrace]
    apply List.mem_cons_of_mem
    simp only [stateSyncSteps]
    refine List.mem_append_left _ (List.mem_append_left _ ?_)
    simp only [stateSyncSceneWalkSteps, hscenes]
    refine List.mem_flatMap.mpr ⟨scene, hscene, ?_⟩
    simp only [hitems]
    refine List.mem_flatMap.mpr ⟨item, hitem, ?_⟩
    simp only [stateSyncItemSteps]
    refine List.mem_append_right _ ?_
    simp only [itemFilterSteps, hfilters]
    refine List.mem_flatMap.mpr ⟨filter, hfilter, ?_⟩
    simp only [filterEntrySteps, hfs]
    have hfst := applyFilterSettings_fst o (itemSourceName item)
      (((filter.getField "name").bind Json.asStr).getD "") fs
    rcases happ : applyFilterSettings o (itemSourceName item)
        (((filter.getField "name").bind Json.asStr).getD "") fs with
      ⟨steps, res⟩
    rw [happ] at hfst
    simp at hfst
    cases res with
    | ok u => simp [hfst]
    | error e2 => simp [hfst]
  · intro p e s hp hpe hs hso
    rw [htrace]
    simp only [stateSyncSteps, List.filter_cons, List.filter_append]
    rw [stateSyncSceneWalkSteps_no_alert]
    simp only [stateSyncProgramSteps, hs, hso, stateSyncPreviewSteps, hp,
      hpe]
    simp [isAlertStep, sendAlertStep]

/-- A slave oracle where studio mode is off and transform reads fail
(per-item failures), but everything else succeeds. -/
def slaveItemFailOracle : SlaveOracle :=
  { slaveOkOracle with getTransform := fun _ _ => .error "no such item" }

/-- First item of the witness snapshot. -/
def c5Item1 : Json :=
  Json.obj [("source_name", Json.str "A"), ("scene_item_id", Json.num 1),
    ("transform", Json.obj [("position_x", Json.num 1)])]

/-- Second item of the witness snapshot. -/
def c5Item2 : Json :=
  Json.obj [("source_name", Json.str "B"), ("scene_item_id", Json.num 2),
    ("transform", Json.obj [("position_x", Json.num 2)])]

/-- Witness snapshot scene. -/
def c5Scene : Json :=
  Json.obj [("name", Json.str "S1"),
    ("items", Json.arr [c5Item1, c5Item2])]

/-- Witness `StateSync` payload: two items and a preview scene. -/
def c5Payload : Json :=
  Json.obj [("current_program_scene", Json.str "Cam1"),
    ("current_preview_scene", Json.str "Cam2"),
    ("scenes", Json.arr [c5Scene])]

/-- Witness for C5: on an oracle whose transform reads fail and whose
studio mode is off, the second item is still attempted and exactly one
Warning alert (for the preview scene) is emitted. -/
theorem stateSync_walks_all_items_witness :
    slaveItemFailOracle.connected = true ∧
    (SlaveStep.call (.getTransform "S1" 2) ∈
      (applySyncMessage slaveItemFailOracle (Json.obj [])
        { message_type := .stateSync, timestamp := 0,
          target_type := .program, payload := c5Payload }).2.1) ∧
    ((applySyncMessage slaveItemFailOracle (Json.obj [])
        { message_type := .stateSync, timestamp := 0,
          target_type := .program, payload := c5Payload }).2.1).filter
        isAlertStep =
      [sendAlertStep "Cam2" ""
        ("Failed to sync preview scene: " ++ "studio mode is not enabled" ++
          " (Studio Mode may not be enabled)") .warning] :=
  ⟨rfl,
   (stateSync_walks_all_items slaveItemFailOracle (Json.obj []) c5Payload 0
     .program rfl).1 [c5Scene] c5Scene [c5Item1, c5Item2] c5Item2
     [("position_x", Json.num 2)] rfl (List.mem_singleton_self _) rfl
     (List.mem_cons_of_mem _ (List.mem_singleton_self _)) rfl,
   (stateSync_walks_all_items slaveItemFailOracle (Json.obj []) c5Payload 0
     .program rfl).2.2 "Cam2" "studio mode is not enabled" "Cam1" rfl rfl
     rfl rfl⟩

/-! ## Slave connection supervisor (`network/client.rs`) -/

/-- `ReconnectionStatus` from `client.rs`. -/
structure ReconnectionStatus where
  is_reconnecting : Bool
  attempt_count : Nat
  max_attempts : Nat
  last_error : Option String
deriving DecidableEq, Repr

/-- `SlaveClient::new` sets `max_reconnect_attempts = 10`. -/
def defaultMaxReconnectAttempts : Nat := 10

/-- The initial `ReconnectionStatus` of `SlaveClient::new`. -/
def initialReconnectionStatus : ReconnectionStatus :=
  { is_reconnecting := false, attempt_count := 0, max_attempts := 10,
    last_error := none }

/-- An observable event of the reconnect loop: a status publication, a
back-off sleep (in seconds), or a `connect_async` call (numbered by the
attempt counter at the time of the call). -/
inductive SupEvent where
  | statusUpdate (s : ReconnectionStatus)
  | sleep (secs : Nat)
  | connectAttempt (n : Nat)
deriving DecidableEq, Repr

/-- Whether an event is a `connect_async` call. -/
def isConnectAttempt : SupEvent → Bool
  | .connectAttempt _ => true
  | _ => false

/-- The reconnect loop of `SlaveClient::connect` under consecutive
connection failures (`should_reconnect` stays true and every
`connect_async` fails, the i-th failure with message `errMsg i`): one
iteration publishes back-off status and sleeps `min(2^(attempt-1), 30)`
seconds when `attempt > 0`, stops with the max-attempts status once
`attempt ≥ maxA`, and otherwise attempts the connection, records the
failure and continues with `attempt + 1`. -/
def supervisorRun (maxA : Nat) (errMsg : Nat → String) (attempt : Nat)
    (status : ReconnectionStatus) : List SupEvent × ReconnectionStatus :=
  let pre :=
    if 0 < attempt then
      let s := { status with
        is_reconnecting := true
        attempt_count := attempt
        max_attempts := maxA }
      ([SupEvent.statusUpdate s,
        SupEvent.sleep (min (2 ^ (attempt - 1)) 30)], s)
    else ([], status)
  if _h : maxA ≤ attempt then
    let s2 := { pre.2 with
      is_reconnecting := false
      attempt_count := attempt
      last_error := some ("Max reconnection attempts (" ++
        toString maxA ++ ") reached") }
    (pre.1 ++ [SupEvent.statusUpdate s2], s2)
  else
    let s2 := { pre.2 with
      is_reconnecting := true
      attempt_count := attempt + 1
      last_error := some (errMsg attempt) }
    let rest := supervisorRun maxA errMsg (attempt + 1) s2
    (pre.1 ++ SupEvent.connectAttempt attempt ::
      SupEvent.statusUpdate s2 :: rest.1, rest.2)
termination_by maxA + 1 - attempt
decreasing_by omega

/-- The terminal status after `maxA` consecutive failures. -/
def finalReconnectionStatus (maxA : Nat) : ReconnectionStatus :=
  { is_reconnecting := false, attempt_count := maxA, max_attempts := maxA,
    last_error := some ("Max reconnection attempts (" ++ toString maxA ++
      ") reached") }

/-- From any iteration with `attempt ≥ 1`, the failing supervisor ends in
the max-attempts status. -/
lemma supervisorRun_final (maxA : Nat) (errMsg : Nat → String) :
    ∀ n a st, maxA - a = n → a ≤ maxA → 1 ≤ a →
    (supervisorRun maxA errMsg a st).2 = finalReconnectionStatus maxA := by
  intro n
  induction n with
  | zero =>
      intro a st hn hle hpos
      have ha : a = maxA := by omega
      subst ha
      unfold supervisorRun
      rw [if_pos (show 0 < a by omega), dif_pos (Nat.le_refl a)]
      simp [finalReconnectionStatus]
  | succ k ih =>
      intro a st hn hle hpos
      unfold supervisorRun
      rw [if_pos (show 0 < a by omega), dif_neg (show ¬ maxA ≤ a by omega)]
      exact ih (a + 1) _ (by omega) (by omega) (by omega)

/-- From any iteration, the number of `connect_async` calls still to happen
is `maxA - a`. -/
lemma supervisorRun_attempt_count (maxA : Nat) (errMsg : Nat → String) :
    ∀ n a st, maxA - a = n →
    ((supervisorRun maxA errMsg a st).1.filter isConnectAttempt).length =
      maxA - a := by
  intro n
  induction n with
  | zero =>
      intro a st hn
      unfold supervisorRun
      rw [dif_pos (show maxA ≤ a by omega)]
      split <;> simp [isConnectAttempt, List.filter_append] <;> omega
  | succ k ih =>
      intro a st hn
      unfold supervisorRun
      rw [dif_neg (show ¬ maxA ≤ a by omega)]
      split <;>
        simp [isConnectAttempt, List.filter_append,
          ih (a + 1) _ (by omega)] <;>
        omega

/-- Lifting an infix across a prepended list. -/
lemma isInfix_append_lift {α : Type} (l₁ : List α) {xs l₂ : List α}
    (h : List.IsInfix xs l₂) : List.IsInfix xs (l₁ ++ l₂) := by
  rcases h with ⟨s, t, hh⟩
  exact ⟨l₁ ++ s, t, by rw [← hh]; simp⟩

/-- Every attempt `i ≥ 1` still to come is immediately preceded by a sleep
of `min(2^(i-1), 30)` seconds. -/
lemma supervisorRun_sleep_before (maxA : Nat) (errMsg : Nat → String) :
    ∀ n a st, maxA - a = n → ∀ i, a ≤ i → 1 ≤ i → i < maxA →
    List.IsInfix [SupEvent.sleep (min (2 ^ (i - 1)) 30),
      SupEvent.connectAttempt i] (supervisorRun maxA errMsg a st).1 := by
  intro n
  induction n with
  | zero =>
      intro a st hn i hai h1 hlt
      omega
  | succ k ih =>
      intro a st hn i hai h1 hlt
      unfold supervisorRun
      rw [dif_neg (show ¬ maxA ≤ a by omega)]
      rcases Nat.lt_or_ge a i with hcase | hcase
      · -- the attempt lies deeper in the run
        refine isInfix_append_lift _ (isInfix_append_lift
          [SupEvent.connectAttempt a, SupEvent.statusUpdate _] ?_)
        exact ih (a + 1) _ (by omega) i (by omega) h1 hlt
      · -- i = a: the sleep of this very iteration precedes the attempt
        have ha : a = i := by omega
        subst ha
        rw [if_pos (show 0 < a by omega)]
        exact ⟨[SupEvent.statusUpdate { st with
          is_reconnecting := true
          attempt_count := a
          max_attempts := maxA }], _, rfl⟩

/-- C7: under consecutive connection failures the i-th reconnection attempt
(`i ≥ 1`, after the immediate attempt 0, which no sleep precedes) is
preceded by a sleep of `min(2^(i-1), 30)` seconds; after `maxA` consecutive
failures the supervisor stops, leaving
`{is_reconnecting := false, last_error := "Max reconnection attempts (N)
reached"}` with `attempt_count = max_attempts = N`; the default
`max_reconnect_attempts` is 10. -/
theorem supervisor_backoff_and_termination (maxA : Nat)
    (errMsg : Nat → String) (st : ReconnectionStatus) (hpos : 1 ≤ maxA) :
    ((supervisorRun maxA errMsg 0 st).2 = finalReconnectionStatus maxA) ∧
    (((supervisorRun maxA errMsg 0 st).1.filter isConnectAttempt).length =
      maxA) ∧
    (∀ i, 1 ≤ i → i < maxA →
      List.IsInfix [SupEvent.sleep (min (2 ^ (i - 1)) 30),
        SupEvent.connectAttempt i] (supervisorRun maxA errMsg 0 st).1) ∧
    ((supervisorRun maxA errMsg 0 st).1.head? =
      some (SupEvent.connectAttempt 0)) ∧
    defaultMaxReconnectAttempts = 10 := by
  refine ⟨?_, ?_, ?_, ?_, rfl⟩
  · rw [supervisorRun]
    rw [if_neg (by omega), dif_neg (by omega)]
    exact supervisorRun_final maxA errMsg (maxA - 1) 1 _ (by omega)
      (by omega) (by omega)
  · have := supervisorRun_attempt_count maxA errMsg (maxA - 0) 0 st rfl
    simpa using this
  · intro i h1 hlt
    exact supervisorRun_sleep_before maxA errMsg (maxA - 0) 0 st rfl i
      (by omega) h1 hlt
  · rw [supervisorRun]
    rw [if_neg (by omega), dif_neg (by omega)]
    simp

/-- Witness for C7 at `max_attempts = 3` (the spec's reconnect scenario):
three connect attempts, sleeps of 1 s and 2 s before attempts 1 and 2, and
the terminal max-attempts status. -/
theorem supervisor_backoff_and_termination_witness :
    (1 ≤ 3) ∧
    (((supervisorRun 3 (fun _ => "Connection refused") 0
        initialReconnectionStatus).2 = finalReconnectionStatus 3) ∧
    (((supervisorRun 3 (fun _ => "Connection refused") 0
        initialReconnectionStatus).1.filter isConnectAttempt).length = 3) ∧
    (∀ i, 1 ≤ i → i < 3 →
      List.IsInfix [SupEvent.sleep (min (2 ^ (i - 1)) 30),
        SupEvent.connectAttempt i]
        (supervisorRun 3 (fun _ => "Connection refused") 0
          initialReconnectionStatus).1) ∧
    ((supervisorRun 3 (fun _ => "Connection refused") 0
        initialReconnectionStatus).1.head? =
      some (SupEvent.connectAttempt 0)) ∧
    defaultMaxReconnectAttempts = 10) :=
  ⟨by omega,
   supervisor_backoff_and_termination 3 (fun _ => "Connection refused")
     initialReconnectionStatus (by omega)⟩

/-! ## Broadcast server upstream dispatch (`network/server.rs`) -/

/-- `SlaveStatus` from `server.rs`. -/
structure SlaveStatus where
  client_id : String
  is_synced : Bool
  desync_details : List Json
  last_report_time : Int

/-- A side effect of the reader loop's Text-frame dispatch other than the
status-map update: re-invoking the initial-state callback. -/
inductive ServerAction where
  | triggerInitialState (client_id : String)

/-- `HashMap::insert` on the `slave_statuses` map, modelled on an
association list. -/
def upsertStatus (statuses : List (String × SlaveStatus)) (k : String)
    (v : SlaveStatus) : List (String × SlaveStatus) :=
  match statuses with
  | [] => [(k, v)]
  | (k1, v1) :: rest =>
      if k1 = k then (k, v) :: rest else (k1, v1) :: upsertStatus rest k v

/-- The Text-frame dispatch of `handle_connection`: a frame that parses as
a `StateSyncRequest` re-triggers the initial-state callback; a
`StateReport` whose payload carries a boolean `is_synced` and an array
`desync_details` upserts `slave_statuses[client_id]` with
`last_report_time = now`; everything else (unparsable frames and other
envelope types) is ignored. -/
def handleTextFrame (client_id : String)
    (statuses : List (String × SlaveStatus)) (now : Int) (frame : Json) :
    List (String × SlaveStatus) × List ServerAction :=
  match decodeSyncMessage frame with
  | none => (statuses, [])
  | some sync_msg =>
      match sync_msg.message_type with
      | .stateSyncRequest => (statuses, [.triggerInitialState client_id])
      | .stateReport =>
          match (sync_msg.payload.getField "is_synced").bind Json.asBool,
              (sync_msg.payload.getField "desync_details").bind Json.asArr with
          | some is_synced, some desync_details =>
              (upsertStatus statuses client_id
                { client_id := client_id
                  is_synced := is_synced
                  desync_details := desync_details
                  last_report_time := now }, [])
          | _, _ => (statuses, [])
      | _ => (statuses, [])

/-- Upserting then looking up the same key yields the new value. -/
lemma upsertStatus_lookup (l : List (String × SlaveStatus)) (k : String)
    (v : SlaveStatus) : (upsertStatus l k v).lookup k = some v := by
  induction l with
  | nil => simp [upsertStatus, List.lookup]
  | cons p t ih =>
      obtain ⟨k1, v1⟩ := p
      by_cases hk : k1 = k
      · simp [upsertStatus, hk, List.lookup]
      · simp only [upsertStatus, if_neg hk, List.lookup]
        rw [show (k == k1) = false by
          simp [Ne.symm hk]]
        exact ih

/-- Counterexample to C8 as stated: a Text frame that parses as a
`StateReport` envelope with an empty payload object is ignored — no upsert
happens although the claim requires one for every parsed `StateReport`. -/
theorem stateReport_empty_payload_ignored :
    ((decodeSyncMessage (encodeSyncMessage
      { message_type := .stateReport, timestamp := 0,
        target_type := .program, payload := Json.obj [] })).map
      (fun m => m.message_type) = some SyncMessageType.stateReport) ∧
    handleTextFrame "192.168.0.7:51000" [] 0 (encodeSyncMessage
      { message_type := .stateReport, timestamp := 0,
        target_type := .program, payload := Json.obj [] }) = ([], []) :=
  ⟨rfl, rfl⟩

/-- C8 (amended): a parsed `StateReport` whose payload carries a boolean
`is_synced` and an array `desync_details` upserts
`slave_statuses[client_id]` from the payload with `last_report_time` set to
the receive time (and the new entry is retrievable under `client_id`); a
parsed `StateReport` lacking either field is ignored; every envelope type
other than `StateSyncRequest` and `StateReport` is ignored. -/
theorem handleTextFrame_dispatch (client_id : String)
    (statuses : List (String × SlaveStatus)) (now : Int) (frame : Json)
    (msg : SyncMessage) (hdec : decodeSyncMessage frame = some msg) :
    (∀ b ds, msg.message_type = SyncMessageType.stateReport →
      (msg.payload.getField "is_synced").bind Json.asBool = some b →
      (msg.payload.getField "desync_details").bind Json.asArr = some ds →
      handleTextFrame client_id statuses now frame =
        (upsertStatus statuses client_id
          { client_id := client_id, is_synced := b, desync_details := ds,
            last_report_time := now }, []) ∧
      ((handleTextFrame client_id statuses now frame).1.lookup client_id =
        some { client_id := client_id, is_synced := b, desync_details := ds,
               last_report_time := now })) ∧
    (msg.message_type = SyncMessageType.stateReport →
      ((msg.payload.getField "is_synced").bind Json.asBool = none ∨
        (msg.payload.getField "desync_details").bind Json.asArr = none) →
      handleTextFrame client_id statuses now frame = (statuses, [])) ∧
    (msg.message_type = SyncMessageType.stateSyncRequest →
      handleTextFrame client_id statuses now frame =
        (statuses, [.triggerInitialState client_id])) ∧
    (msg.message_type ≠ SyncMessageType.stateSyncRequest →
      msg.message_type ≠ SyncMessageType.stateReport →
      handleTextFrame client_id statuses now frame = (statuses, [])) := by
  refine ⟨?_, ?_, ?_, ?_⟩
  · intro b ds hmt hb hds
    constructor
    · simp [handleTextFrame, hdec, hmt, hb, hds]
    · simp [handleTextFrame, hdec, hmt, hb, hds, upsertStatus_lookup]
  · intro hmt hmiss
    rcases hmiss with hb | hds
    · simp [handleTextFrame, hdec, hmt, hb]
    · rcases hb : (msg.payload.getField "is_synced").bind Json.asBool with
        _ | b <;>
        simp [handleTextFrame, hdec, hmt, hb, hds]
  · intro hmt
    simp [handleTextFrame, hdec, hmt]
  · intro h1 h2
    cases hm : msg.message_type <;>
      simp_all [handleTextFrame, hdec]

/-- Witness for C8 at a concrete report frame: `is_synced = false` with one
desync detail is upserted with `last_report_time = 42`. -/
theorem handleTextFrame_dispatch_witness :
    (decodeSyncMessage (encodeSyncMessage
      { message_type := .stateReport, timestamp := 7, target_type := .program,
        payload := Json.obj [("is_synced", Json.bool false),
          ("desync_details", Json.arr [Json.str "SceneMismatch"])] }) =
      some { message_type := .stateReport, timestamp := 7,
             target_type := .program,
             payload := Json.obj [("is_synced", Json.bool false),
               ("desync_details", Json.arr [Json.str "SceneMismatch"])] }) ∧
    (handleTextFrame "192.168.0.7:51000" [] 42 (encodeSyncMessage
      { message_type := .stateReport, timestamp := 7, target_type := .program,
        payload := Json.obj [("is_synced", Json.bool false),
          ("desync_details", Json.arr [Json.str "SceneMismatch"])] }) =
      (upsertStatus [] "192.168.0.7:51000"
        { client_id := "192.168.0.7:51000", is_synced := false,
          desync_details := [Json.str "SceneMismatch"],
          last_report_time := 42 }, [])) :=
  ⟨decode_encode_syncMessage
    { message_type := .stateReport, timestamp := 7, target_type := .program,
      payload := Json.obj [("is_synced", Json.bool false),
        ("desync_details", Json.arr [Json.str "SceneMismatch"])] },
   ((handleTextFrame_dispatch "192.168.0.7:51000" [] 42
     (encodeSyncMessage
       { message_type := .stateReport, timestamp := 7,
         target_type := .program,
         payload := Json.obj [("is_synced", Json.bool false),
           ("desync_details", Json.arr [Json.str "SceneMismatch"])] })
     { message_type := .stateReport, timestamp := 7, target_type := .program,
       payload := Json.obj [("is_synced", Json.bool false),
         ("desync_details", Json.arr [Json.str "SceneMismatch"])] }
     (decode_encode_syncMessage
       { message_type := .stateReport, timestamp := 7,
         target_type := .program,
         payload := Json.obj [("is_synced", Json.bool false),
           ("desync_details", Json.arr [Json.str "SceneMismatch"])] })).1
     false [Json.str "SceneMismatch"] rfl rfl rfl).1⟩

end ObsSync
